import Mathlib

/-!
Shallow embedding of the three eBPF probe sources of the probepilot
repository:

* src/probes/memory/memory-tracker/memory_tracker.c
* src/probes/network/tcp-flow/tcp_flow.c
* src/probes/performance/cpu-profiler/cpu_profiler.c

BPF hash maps are modelled as association lists with a capacity-checked
update (BPF_ANY semantics: overwrite always succeeds, insertion of a new
key fails when the map is full).  The ring buffer is modelled as a bounded
queue of records: bpf_ringbuf_reserve succeeds exactly when the queue
holds fewer records than its capacity; on failure the helpers return with
no effect, as in the source.  Unsigned 64-bit arithmetic is modelled on
Nat with an explicit reduction modulo 2^64 where the C performs wrapping
addition.  Kernel-supplied ambient values (timestamps, pid/tid, captured
stack handle, command name, fields read through BPF_CORE_READ) are passed
in explicitly through small environment records, one per probe domain.
-/

/-- Wrap-around bound for unsigned 64-bit arithmetic. -/
def u64Mod : Nat := 2 ^ 64

/-- Wrap-around bound for unsigned 32-bit arithmetic. -/
def u32Mod : Nat := 2 ^ 32

/-- Unsigned 64-bit addition (wraps modulo 2^64, as the C += on __u64). -/
def add64 (a b : Nat) : Nat := (a + b) % u64Mod

/-- Unsigned 32-bit subtraction (wraps modulo 2^32, as __u32 minus __u32). -/
def sub32 (a b : Nat) : Nat := (a % u32Mod + u32Mod - b % u32Mod) % u32Mod

/-- Byte swap of an unsigned 16-bit value, the effect of bpf_ntohs. -/
def ntohs16 (x : Nat) : Nat := (x % 256) * 256 + (x / 256) % 256

/-- Lookup in an association-list map: the value stored under key `k`,
mirroring bpf_map_lookup_elem (NULL becomes `none`). -/
def mapLookup {K V : Type} [DecidableEq K] (m : List (K × V)) (k : K) : Option V :=
  match m with
  | [] => none
  | (k', v) :: rest => if k = k' then some v else mapLookup rest k

/-- Overwrite-or-insert on an association-list map (no capacity check). -/
def mapSet {K V : Type} [DecidableEq K] (m : List (K × V)) (k : K) (v : V) :
    List (K × V) :=
  match m with
  | [] => [(k, v)]
  | (k', v') :: rest =>
      if k = k' then (k, v) :: rest else (k', v') :: mapSet rest k v

/-- Removal of a key, mirroring bpf_map_delete_elem. -/
def mapDelete {K V : Type} [DecidableEq K] (m : List (K × V)) (k : K) :
    List (K × V) :=
  match m with
  | [] => []
  | (k', v') :: rest =>
      if k = k' then mapDelete rest k else (k', v') :: mapDelete rest k

/-- bpf_map_update_elem with BPF_ANY on a map of capacity `cap`:
overwriting an existing key always succeeds, inserting a new key succeeds
only while the map is below capacity; `none` is the -E2BIG failure. -/
def mapUpdate {K V : Type} [DecidableEq K] (cap : Nat) (m : List (K × V))
    (k : K) (v : V) : Option (List (K × V)) :=
  if (mapLookup m k).isSome ∨ m.length < cap then some (mapSet m k v) else none

namespace MemoryTracker

/-- MAX_ENTRIES of memory_tracker.c. -/
def MAX_ENTRIES : Nat := 10240

def ALLOC_MALLOC : Nat := 1
def ALLOC_CALLOC : Nat := 2
def ALLOC_REALLOC : Nat := 3
def ALLOC_FREE : Nat := 4
def ALLOC_MMAP : Nat := 5
def ALLOC_MUNMAP : Nat := 6
def ALLOC_BRK : Nat := 7
def ALLOC_PAGE : Nat := 8

/-- struct memory_event (the `type` field is rendered `etype`). -/
structure MemoryEvent where
  timestamp : Nat
  pid : Nat
  tid : Nat
  addr : Nat
  size : Nat
  old_addr : Nat
  etype : Nat
  flags : Nat
  stack_id : Nat
  comm : String
deriving DecidableEq

/-- struct process_memory. -/
structure ProcessMemory where
  total_allocated : Nat
  total_freed : Nat
  current_usage : Nat
  peak_usage : Nat
  allocation_count : Nat
  free_count : Nat
  page_faults : Nat
  major_faults : Nat
  rss_pages : Nat
  vmem_pages : Nat
deriving DecidableEq

/-- The zero-initialized process_memory record (`struct process_memory new_mem = {}`). -/
def zeroProcessMemory : ProcessMemory :=
  { total_allocated := 0, total_freed := 0, current_usage := 0, peak_usage := 0,
    allocation_count := 0, free_count := 0, page_faults := 0, major_faults := 0,
    rss_pages := 0, vmem_pages := 0 }

/-- struct system_memory. -/
structure SystemMemory where
  total_memory : Nat
  free_memory : Nat
  available_memory : Nat
  cached_memory : Nat
  buffer_memory : Nat
  slab_memory : Nat
  page_cache_size : Nat
  memory_pressure : Nat
deriving DecidableEq

def zeroSystemMemory : SystemMemory :=
  { total_memory := 0, free_memory := 0, available_memory := 0, cached_memory := 0,
    buffer_memory := 0, slab_memory := 0, page_cache_size := 0, memory_pressure := 0 }

/-- struct allocation_info. -/
structure AllocationInfo where
  size : Nat
  timestamp : Nat
  stack_id : Nat
  pid : Nat
deriving DecidableEq

/-- Ambient kernel context consumed by the memory hooks: current pid
(bpf_get_current_pid_tgid shifted), raw tid, bpf_ktime_get_ns, the handle
returned by bpf_get_stackid, and the command name. -/
structure MemEnv where
  pid : Nat
  tid : Nat
  now : Nat
  stack_id : Nat
  comm : String
deriving DecidableEq

/-- Full state touched by the memory-tracker hooks: the three data maps
plus the ring buffer (a bounded queue of `cap` records). -/
structure MemState where
  process_memory_map : List (Nat × ProcessMemory)
  allocation_map : List (Nat × AllocationInfo)
  system_memory_map : List (Nat × SystemMemory)
  events : List MemoryEvent
  events_cap : Nat
deriving DecidableEq

/-- send_memory_event: reserve a record in the ring buffer; on failure
(full buffer) return with the buffer unchanged, otherwise fill the record
and submit it. -/
def send_memory_event (env : MemEnv) (cap : Nat) (buf : List MemoryEvent)
    (pid addr size ty old_addr : Nat) : List MemoryEvent :=
  if buf.length < cap then
    buf ++ [{ timestamp := env.now, pid := pid, tid := env.tid, addr := addr,
              size := size, old_addr := old_addr, etype := ty, flags := 0,
              stack_id := env.stack_id, comm := env.comm }]
  else buf

/-- The statistics mutation performed through the `mem` pointer in
update_process_memory (lines 161-174): the allocation branch adds to the
totals, bumps the count, raises current_usage and possibly peak_usage;
the deallocation branch adds to total_freed, bumps free_count and
subtracts from current_usage only when that cannot underflow. -/
def pmApply (is_allocation : Bool) (size_delta : Nat) (mem : ProcessMemory) :
    ProcessMemory :=
  if is_allocation then
    let cu := add64 mem.current_usage size_delta
    { mem with
      total_allocated := add64 mem.total_allocated size_delta
      allocation_count := add64 mem.allocation_count 1
      current_usage := cu
      peak_usage := if mem.peak_usage < cu then cu else mem.peak_usage }
  else
    { mem with
      total_freed := add64 mem.total_freed size_delta
      free_count := add64 mem.free_count 1
      current_usage :=
        if size_delta ≤ mem.current_usage then mem.current_usage - size_delta
        else mem.current_usage }

/-- The lookup / zero-insert / re-lookup sequence shared by
update_process_memory, trace_page_fault and sample_memory_stats: returns
the (possibly extended) map together with the record found, `none` when
the zero record could not be inserted (map at capacity). -/
def getOrCreatePM (m : List (Nat × ProcessMemory)) (pid : Nat) :
    List (Nat × ProcessMemory) × Option ProcessMemory :=
  match mapLookup m pid with
  | some mem => (m, some mem)
  | none =>
      match mapUpdate MAX_ENTRIES m pid zeroProcessMemory with
      | some m2 => (m2, mapLookup m2 pid)
      | none => (m, none)

/-- Mutation of the record obtained through `getOrCreatePM` (the write
through the returned pointer); when no record could be obtained the map
is left as the failed sequence left it. -/
def withProcessRecord (m : List (Nat × ProcessMemory)) (pid : Nat)
    (f : ProcessMemory → ProcessMemory) : List (Nat × ProcessMemory) :=
  match getOrCreatePM m pid with
  | (m2, some mem) => mapSet m2 pid (f mem)
  | (m2, none) => m2

/-- update_process_memory (lines 151-175). -/
def update_process_memory (m : List (Nat × ProcessMemory)) (pid : Nat)
    (size_delta : Nat) (is_allocation : Bool) : List (Nat × ProcessMemory) :=
  withProcessRecord m pid (pmApply is_allocation size_delta)

/-- Appending one record to the ring buffer of a state through
send_memory_event (the only field a send touches). -/
def emitMem (env : MemEnv) (s : MemState) (pid addr size ty old_addr : Nat) :
    MemState :=
  { s with events := send_memory_event env s.events_cap s.events pid addr size ty old_addr }

/-- trace_malloc (uprobe on malloc entry, lines 178-188): guard, then a
single event; no map is touched. -/
def trace_malloc (env : MemEnv) (s : MemState) (size : Nat) : MemState :=
  if env.pid = 0 ∨ size = 0 then s
  else emitMem env s env.pid 0 size ALLOC_MALLOC 0

/-- trace_malloc_ret (uretprobe on malloc, lines 190-201): the body after
the guard is only a comment — nothing is stored and no event is sent. -/
def trace_malloc_ret (env : MemEnv) (s : MemState) (addr : Nat) : MemState :=
  if env.pid = 0 ∨ addr = 0 then s
  else s

/-- trace_free (uprobe on free, lines 204-223): resolve the size through
allocation_map; when the entry exists it is deleted and the statistics are
updated, otherwise size stays 0 and the statistics are untouched; an event
is emitted in both cases. -/
def trace_free (env : MemEnv) (s : MemState) (addr : Nat) : MemState :=
  if env.pid = 0 ∨ addr = 0 then s
  else
    match mapLookup s.allocation_map addr with
    | some info =>
        let am := mapDelete s.allocation_map addr
        let pm := update_process_memory s.process_memory_map env.pid info.size false
        emitMem env { s with allocation_map := am, process_memory_map := pm }
          env.pid addr info.size ALLOC_FREE 0
    | none => emitMem env s env.pid addr 0 ALLOC_FREE 0

/-- trace_mmap_enter (lines 226-236): guard, then a single event. -/
def trace_mmap_enter (env : MemEnv) (s : MemState) (len : Nat) : MemState :=
  if env.pid = 0 ∨ len = 0 then s
  else emitMem env s env.pid 0 len ALLOC_MMAP 0

/-- trace_mmap_exit (lines 238-254): on a non-error return value, store an
allocation_info whose size field is left at zero (the entry-side size is
never carried over); the update result is ignored.  The error guard
`(__s64)addr < 0` is the test `2^63 ≤ addr` on the unsigned value. -/
def trace_mmap_exit (env : MemEnv) (s : MemState) (addr : Nat) : MemState :=
  if env.pid = 0 ∨ 2 ^ 63 ≤ addr then s
  else
    match mapUpdate (MAX_ENTRIES * 4) s.allocation_map addr
      { size := 0, timestamp := env.now, stack_id := 0, pid := env.pid } with
    | some am => { s with allocation_map := am }
    | none => s

/-- trace_munmap (lines 257-274): statistics are updated (with the syscall
length) only when a correlation entry exists; the event always carries the
syscall length. -/
def trace_munmap (env : MemEnv) (s : MemState) (addr len : Nat) : MemState :=
  if env.pid = 0 ∨ addr = 0 then s
  else
    match mapLookup s.allocation_map addr with
    | some _ =>
        let am := mapDelete s.allocation_map addr
        let pm := update_process_memory s.process_memory_map env.pid len false
        emitMem env { s with allocation_map := am, process_memory_map := pm }
          env.pid addr len ALLOC_MUNMAP 0
    | none => emitMem env s env.pid addr len ALLOC_MUNMAP 0

/-- trace_brk (lines 277-287). -/
def trace_brk (env : MemEnv) (s : MemState) (addr : Nat) : MemState :=
  if env.pid = 0 then s
  else emitMem env s env.pid addr 0 ALLOC_BRK 0

/-- The fault-counter mutation of trace_page_fault (lines 307-312). -/
def pfApply (error_code : Nat) (mem : ProcessMemory) : ProcessMemory :=
  let m1 := { mem with page_faults := add64 mem.page_faults 1 }
  if error_code &&& 4 ≠ 0 then
    { m1 with major_faults := add64 m1.major_faults 1 }
  else m1

/-- trace_page_fault (lines 290-316): get-or-create the record (returning
early, without an event, when that fails), bump the fault counters and
emit a 4096-byte ALLOC_PAGE event. -/
def trace_page_fault (env : MemEnv) (s : MemState) (address error_code : Nat) :
    MemState :=
  if env.pid = 0 then s
  else
    match getOrCreatePM s.process_memory_map env.pid with
    | (m2, some mem) =>
        let pm := mapSet m2 env.pid (pfApply error_code mem)
        emitMem env { s with process_memory_map := pm } env.pid address 4096
          ALLOC_PAGE 0
    | (m2, none) => { s with process_memory_map := m2 }

/-- trace_memory_pressure (lines 319-327). -/
def trace_memory_pressure (s : MemState) : MemState :=
  match mapLookup s.system_memory_map 0 with
  | some sysm =>
      let sysm2 := { sysm with memory_pressure := add64 sysm.memory_pressure 1 }
      { s with system_memory_map := mapSet s.system_memory_map 0 sysm2 }
  | none => s

/-- trace_oom_victim (lines 330-337): a single event of the special type
0xFF for the victim pid, with no guard. -/
def trace_oom_victim (env : MemEnv) (s : MemState) (victim : Nat) : MemState :=
  emitMem env s victim 0 0 255 0

/-- sample_memory_stats (lines 340-372): no-op for the sentinel pid or a
missing mm; otherwise get-or-create the record and overwrite the absolute
rss/vmem fields with the sampled values. -/
def sample_memory_stats (env : MemEnv) (s : MemState) (mm_ok : Bool)
    (rss vmem : Nat) : MemState :=
  if env.pid = 0 then s
  else if mm_ok then
    let pm := withProcessRecord s.process_memory_map env.pid
      (fun mem => { mem with rss_pages := rss, vmem_pages := vmem })
    { s with process_memory_map := pm }
  else s

/-- The kprobe on __alloc_pages (lines 375-386): (1 << order) pages of
4096 bytes are accounted as an allocation and an ALLOC_PAGE event. -/
def alloc_pages_hook (env : MemEnv) (s : MemState) (order : Nat) : MemState :=
  if env.pid = 0 then s
  else
    let size := 2 ^ order * 4096
    let pm := update_process_memory s.process_memory_map env.pid size true
    emitMem env { s with process_memory_map := pm } env.pid 0 size ALLOC_PAGE 0

/-- The kprobe on __free_pages (lines 388-398). -/
def free_pages_hook (env : MemEnv) (s : MemState) (order : Nat) : MemState :=
  if env.pid = 0 then s
  else
    let size := 2 ^ order * 4096
    let pm := update_process_memory s.process_memory_map env.pid size false
    { s with process_memory_map := pm }

/-- One kernel event dispatched to a memory-tracker hook, with the raw
arguments the hook decodes. -/
inductive MemHook where
  | malloc (size : Nat)
  | mallocRet (addr : Nat)
  | free (addr : Nat)
  | mmapEnter (len : Nat)
  | mmapExit (addr : Nat)
  | munmap (addr len : Nat)
  | brk (addr : Nat)
  | pageFault (address error_code : Nat)
  | pressure
  | oom (victim : Nat)
  | sample (mm_ok : Bool) (rss vmem : Nat)
  | allocPages (order : Nat)
  | freePages (order : Nat)
deriving DecidableEq

/-- Dispatch of one kernel event to the matching hook. -/
def memStep (s : MemState) : MemEnv × MemHook → MemState
  | (env, .malloc size) => trace_malloc env s size
  | (env, .mallocRet addr) => trace_malloc_ret env s addr
  | (env, .free addr) => trace_free env s addr
  | (env, .mmapEnter len) => trace_mmap_enter env s len
  | (env, .mmapExit addr) => trace_mmap_exit env s addr
  | (env, .munmap addr len) => trace_munmap env s addr len
  | (env, .brk addr) => trace_brk env s addr
  | (env, .pageFault address error_code) => trace_page_fault env s address error_code
  | (_, .pressure) => trace_memory_pressure s
  | (env, .oom victim) => trace_oom_victim env s victim
  | (env, .sample mm_ok rss vmem) => sample_memory_stats env s mm_ok rss vmem
  | (env, .allocPages order) => alloc_pages_hook env s order
  | (env, .freePages order) => free_pages_hook env s order

/-- A sequence of kernel events run through the dispatchers. -/
def runMem (s : MemState) (tr : List (MemEnv × MemHook)) : MemState :=
  tr.foldl memStep s

/-- Startup state: empty hash maps, the one zeroed array slot of
system_memory_map, an empty ring buffer of capacity `cap`. -/
def initMemState (cap : Nat) : MemState :=
  { process_memory_map := [], allocation_map := [],
    system_memory_map := [(0, zeroSystemMemory)], events := [], events_cap := cap }

/-- The correlation-table take performed by trace_free and trace_munmap:
look the entry up and, when present, delete it; the returned option is the
consumed entry. -/
def takeAllocation (m : List (Nat × AllocationInfo)) (addr : Nat) :
    Option AllocationInfo × List (Nat × AllocationInfo) :=
  match mapLookup m addr with
  | some info => (some info, mapDelete m addr)
  | none => (none, m)

/-- The gauge invariant of process_memory_map: every stored record has
current_usage at most peak_usage. -/
def PMInv (m : List (Nat × ProcessMemory)) : Prop :=
  ∀ pid r, mapLookup m pid = some r → r.current_usage ≤ r.peak_usage

/-- Between two map states: every record survives (records are never
deleted) and its peak_usage never decreases. -/
def pmGE (m m' : List (Nat × ProcessMemory)) : Prop :=
  ∀ pid r, mapLookup m pid = some r →
    ∃ r', mapLookup m' pid = some r' ∧ r.peak_usage ≤ r'.peak_usage

end MemoryTracker

namespace TcpFlow

/-- MAX_ENTRIES of tcp_flow.c. -/
def MAX_ENTRIES : Nat := 10240

def AF_INET : Nat := 2
def IPPROTO_TCP : Nat := 6

/-- Kernel TCP state numbers used by trace_tcp_state_change. -/
def TCP_ESTABLISHED : Nat := 1
def TCP_SYN_SENT : Nat := 2
def TCP_SYN_RECV : Nat := 3
def TCP_CLOSE : Nat := 7

/-- struct flow_key. -/
structure FlowKey where
  saddr : Nat
  daddr : Nat
  sport : Nat
  dport : Nat
  protocol : Nat
deriving DecidableEq

/-- struct flow_data. -/
structure FlowData where
  bytes_tx : Nat
  bytes_rx : Nat
  packets_tx : Nat
  packets_rx : Nat
  first_seen : Nat
  last_seen : Nat
  rtt_samples : Nat
  rtt_total : Nat
  state : Nat
deriving DecidableEq

/-- The zero-initialized flow_data record (`struct flow_data new_flow = {}`). -/
def zeroFlowData : FlowData :=
  { bytes_tx := 0, bytes_rx := 0, packets_tx := 0, packets_rx := 0,
    first_seen := 0, last_seen := 0, rtt_samples := 0, rtt_total := 0, state := 0 }

/-- struct tcp_event. -/
structure TcpEvent where
  timestamp : Nat
  pid : Nat
  saddr : Nat
  daddr : Nat
  sport : Nat
  dport : Nat
  bytes : Nat
  rtt : Nat
  event_type : Nat
  comm : String
deriving DecidableEq

/-- Fields of the socket read through BPF_CORE_READ on (struct inet_sock*)sk:
addresses and the two ports in network byte order. -/
structure SockInfo where
  saddr : Nat
  daddr : Nat
  sport : Nat
  dport : Nat
deriving DecidableEq

/-- Ambient kernel context of the tcp hooks. -/
structure TcpEnv where
  pid : Nat
  now : Nat
  comm : String
deriving DecidableEq

/-- State touched by the tcp-flow hooks. -/
structure TcpState where
  flow_map : List (FlowKey × FlowData)
  events : List TcpEvent
  events_cap : Nat
deriving DecidableEq

/-- make_flow_key (lines 78-86). -/
def make_flow_key (saddr daddr sport dport : Nat) : FlowKey :=
  { saddr := saddr, daddr := daddr, sport := sport, dport := dport,
    protocol := IPPROTO_TCP }

/-- The key both data-path hooks derive from the socket (addresses as
read, ports through bpf_ntohs). -/
def sockKey (sk : SockInfo) : FlowKey :=
  make_flow_key sk.saddr sk.daddr (ntohs16 sk.sport) (ntohs16 sk.dport)

/-- send_event (lines 89-118): reserve, fill (ports converted to host
order), submit; on a full buffer return with the buffer unchanged. -/
def send_event (env : TcpEnv) (cap : Nat) (buf : List TcpEvent)
    (event_type : Nat) (sk : SockInfo) (bytes rtt : Nat) : List TcpEvent :=
  if buf.length < cap then
    buf ++ [{ timestamp := env.now, pid := env.pid, saddr := sk.saddr,
              daddr := sk.daddr, sport := ntohs16 sk.sport,
              dport := ntohs16 sk.dport, bytes := bytes, rtt := rtt,
              event_type := event_type, comm := env.comm }]
  else buf

/-- Appending one record through send_event, as a state transformer. -/
def emitTcp (env : TcpEnv) (s : TcpState) (event_type : Nat) (sk : SockInfo)
    (bytes rtt : Nat) : TcpState :=
  { s with events := send_event env s.events_cap s.events event_type sk bytes rtt }

/-- trace_tcp_state_change (lines 121-152): IPv4 only; connect on
SYN_SENT to ESTABLISHED, accept on SYN_RECV to ESTABLISHED, close on any
transition into TCP_CLOSE; the three sends are sequential. -/
def trace_tcp_state_change (env : TcpEnv) (s : TcpState) (sk : SockInfo)
    (family oldstate newstate : Nat) : TcpState :=
  if family ≠ AF_INET then s
  else
    let s1 := if oldstate = TCP_SYN_SENT ∧ newstate = TCP_ESTABLISHED then
      emitTcp env s 1 sk 0 0 else s
    let s2 := if oldstate = TCP_SYN_RECV ∧ newstate = TCP_ESTABLISHED then
      emitTcp env s1 2 sk 0 0 else s1
    if newstate = TCP_CLOSE then emitTcp env s2 5 sk 0 0 else s2

/-- trace_tcp_probe (lines 155-172): computes the unsigned 32-bit bytes in
flight and emits one type-3 event carrying srtt; flow_map is not read or
written. -/
def trace_tcp_probe (env : TcpEnv) (s : TcpState) (sk : SockInfo)
    (snd_nxt snd_una srtt : Nat) : TcpState :=
  let bytes_in_flight := sub32 snd_nxt snd_una
  emitTcp env s 3 sk bytes_in_flight srtt

/-- trace_tcp_retransmit (lines 175-183). -/
def trace_tcp_retransmit (env : TcpEnv) (s : TcpState) (sk : SockInfo) :
    TcpState :=
  emitTcp env s 6 sk 0 0

/-- The in-place mutation of an existing flow record in tcp_sendmsg
(lines 215-217). -/
def txApply (ts size : Nat) (flow : FlowData) : FlowData :=
  { flow with bytes_tx := add64 flow.bytes_tx size,
              packets_tx := add64 flow.packets_tx 1, last_seen := ts }

/-- The record tcp_sendmsg builds on a lookup miss (lines 208-213). -/
def txInit (ts size : Nat) : FlowData :=
  { zeroFlowData with first_seen := ts, last_seen := ts, bytes_tx := size,
                      packets_tx := 1 }

/-- The in-place mutation of an existing flow record in tcp_cleanup_rbuf
(lines 259-261). -/
def rxApply (ts copied : Nat) (flow : FlowData) : FlowData :=
  { flow with bytes_rx := add64 flow.bytes_rx copied,
              packets_rx := add64 flow.packets_rx 1, last_seen := ts }

/-- The record tcp_cleanup_rbuf builds on a lookup miss (lines 252-257). -/
def rxInit (ts copied : Nat) : FlowData :=
  { zeroFlowData with first_seen := ts, last_seen := ts, bytes_rx := copied,
                      packets_rx := 1 }

/-- tcp_sendmsg (lines 186-224): derive the key from the socket, create or
mutate the flow record, emit a type-3 event whose 32-bit `bytes` field
truncates the size_t argument. -/
def tcp_sendmsg (env : TcpEnv) (s : TcpState) (sk : SockInfo) (size : Nat) :
    TcpState :=
  let key := sockKey sk
  let fm :=
    match mapLookup s.flow_map key with
    | none =>
        match mapUpdate MAX_ENTRIES s.flow_map key (txInit env.now size) with
        | some m => m
        | none => s.flow_map
    | some flow => mapSet s.flow_map key (txApply env.now size flow)
  emitTcp env { s with flow_map := fm } 3 sk (size % u32Mod) 0

/-- tcp_cleanup_rbuf (lines 227-268): no-op unless `copied` is positive;
otherwise like the send side with the rx counters, emitting a type-4
event. -/
def tcp_cleanup_rbuf (env : TcpEnv) (s : TcpState) (sk : SockInfo)
    (copied : Int) : TcpState :=
  if copied ≤ 0 then s
  else
    let n := copied.toNat
    let key := sockKey sk
    let fm :=
      match mapLookup s.flow_map key with
      | none =>
          match mapUpdate MAX_ENTRIES s.flow_map key (rxInit env.now n) with
          | some m => m
          | none => s.flow_map
      | some flow => mapSet s.flow_map key (rxApply env.now n flow)
    emitTcp env { s with flow_map := fm } 4 sk (n % u32Mod) 0

/-- One kernel event dispatched to a tcp-flow hook. -/
inductive TcpHook where
  | stateChange (sk : SockInfo) (family oldstate newstate : Nat)
  | probe (sk : SockInfo) (snd_nxt snd_una srtt : Nat)
  | retransmit (sk : SockInfo)
  | sendmsg (sk : SockInfo) (size : Nat)
  | cleanupRbuf (sk : SockInfo) (copied : Int)
deriving DecidableEq

def tcpStep (s : TcpState) : TcpEnv × TcpHook → TcpState
  | (env, .stateChange sk family oldstate newstate) =>
      trace_tcp_state_change env s sk family oldstate newstate
  | (env, .probe sk snd_nxt snd_una srtt) =>
      trace_tcp_probe env s sk snd_nxt snd_una srtt
  | (env, .retransmit sk) => trace_tcp_retransmit env s sk
  | (env, .sendmsg sk size) => tcp_sendmsg env s sk size
  | (env, .cleanupRbuf sk copied) => tcp_cleanup_rbuf env s sk copied

def runTcp (s : TcpState) (tr : List (TcpEnv × TcpHook)) : TcpState :=
  tr.foldl tcpStep s

/-- Startup state of the tcp probe. -/
def initTcpState (cap : Nat) : TcpState :=
  { flow_map := [], events := [], events_cap := cap }

/-- Every stored flow record has a zero round-trip-time pair. -/
def RttZero (m : List (FlowKey × FlowData)) : Prop :=
  ∀ key r, mapLookup m key = some r → r.rtt_samples = 0 ∧ r.rtt_total = 0

end TcpFlow

namespace CpuProfiler

/-- MAX_ENTRIES of cpu_profiler.c. -/
def MAX_ENTRIES : Nat := 10240

def MAX_CPUS : Nat := 256

def TASK_RUNNING : Nat := 0

/-- struct cpu_sample. -/
structure CpuSample where
  timestamp : Nat
  pid : Nat
  cpu : Nat
  runtime : Nat
  vruntime : Nat
  prio : Nat
  weight : Nat
  comm : String
deriving DecidableEq

/-- struct process_stats. -/
structure ProcessStats where
  total_runtime : Nat
  schedule_count : Nat
  voluntary_switches : Nat
  involuntary_switches : Nat
  last_seen : Nat
  min_cpu : Nat
  max_cpu : Nat
deriving DecidableEq

def zeroProcessStats : ProcessStats :=
  { total_runtime := 0, schedule_count := 0, voluntary_switches := 0,
    involuntary_switches := 0, last_seen := 0, min_cpu := 0, max_cpu := 0 }

/-- struct cpu_stats. -/
structure CpuStats where
  idle_time : Nat
  user_time : Nat
  system_time : Nat
  irq_time : Nat
  softirq_time : Nat
  context_switches : Nat
  frequency : Nat
  load_avg : Nat
deriving DecidableEq

/-- Fields of a task_struct read through BPF_CORE_READ by send_cpu_sample. -/
structure TaskInfo where
  pid : Nat
  prio : Nat
  vruntime : Nat
  weight : Nat
  comm : String
deriving DecidableEq

/-- Ambient kernel context of the cpu hooks. -/
structure CpuEnv where
  cpu : Nat
  now : Nat
deriving DecidableEq

/-- State touched by the cpu-profiler hooks. -/
structure CpuState where
  process_map : List (Nat × ProcessStats)
  cpu_map : List (Nat × CpuStats)
  events : List CpuSample
  events_cap : Nat
deriving DecidableEq

/-- send_cpu_sample (lines 84-108): reserve, fill from the task, submit;
on a full buffer return with the buffer unchanged. -/
def send_cpu_sample (now cap : Nat) (buf : List CpuSample) (task : TaskInfo)
    (cpu runtime : Nat) : List CpuSample :=
  if buf.length < cap then
    buf ++ [{ timestamp := now, pid := task.pid, cpu := cpu, runtime := runtime,
              vruntime := task.vruntime, prio := task.prio,
              weight := task.weight, comm := task.comm }]
  else buf

/-- The observation-field refresh done on every hit of a process record
(last_seen and the min/max observed cpu). -/
def seenApply (ts cpu : Nat) (stats : ProcessStats) : ProcessStats :=
  { stats with last_seen := ts,
               min_cpu := if cpu < stats.min_cpu then cpu else stats.min_cpu,
               max_cpu := if stats.max_cpu < cpu then cpu else stats.max_cpu }

/-- The outgoing-task mutation of trace_sched_switch on an existing record
(lines 130-139): refresh the observation fields, then count the switch as
involuntary when the outgoing task was still runnable and voluntary
otherwise. -/
def schedOutEvolve (ts cpu prev_state : Nat) (stats : ProcessStats) :
    ProcessStats :=
  let st1 := seenApply ts cpu stats
  if prev_state = TASK_RUNNING then
    { st1 with involuntary_switches := add64 st1.involuntary_switches 1 }
  else
    { st1 with voluntary_switches := add64 st1.voluntary_switches 1 }

/-- The incoming-task mutation of trace_sched_switch on an existing record
(lines 153-158). -/
def schedInEvolve (ts cpu : Nat) (stats : ProcessStats) : ProcessStats :=
  { seenApply ts cpu stats with
      schedule_count := add64 stats.schedule_count 1 }

/-- The fresh record the outgoing block inserts on a lookup miss
(lines 123-128): zero-initialized, then last_seen and the observed cpu
set; no switch counter is bumped. -/
def schedOutInit (ts cpu : Nat) : ProcessStats :=
  { zeroProcessStats with last_seen := ts, min_cpu := cpu, max_cpu := cpu }

/-- The fresh record the incoming block inserts on a lookup miss
(lines 146-152): as the outgoing one, with schedule_count starting at 1. -/
def schedInInit (ts cpu : Nat) : ProcessStats :=
  { zeroProcessStats with
    schedule_count := 1, last_seen := ts, min_cpu := cpu, max_cpu := cpu }

/-- The outgoing-task block of trace_sched_switch (lines 120-141) as a
transformation of process_map. -/
def sched_switch_out (env : CpuEnv) (pm : List (Nat × ProcessStats))
    (prev_pid prev_state : Nat) : List (Nat × ProcessStats) :=
  if 0 < prev_pid then
    match mapLookup pm prev_pid with
    | none =>
        match mapUpdate MAX_ENTRIES pm prev_pid (schedOutInit env.now env.cpu) with
        | some m => m
        | none => pm
    | some stats =>
        mapSet pm prev_pid (schedOutEvolve env.now env.cpu prev_state stats)
  else pm

/-- The incoming-task block of trace_sched_switch (lines 143-159). -/
def sched_switch_in (env : CpuEnv) (pm : List (Nat × ProcessStats))
    (next_pid : Nat) : List (Nat × ProcessStats) :=
  if 0 < next_pid then
    match mapLookup pm next_pid with
    | none =>
        match mapUpdate MAX_ENTRIES pm next_pid (schedInInit env.now env.cpu) with
        | some m => m
        | none => pm
    | some stats => mapSet pm next_pid (schedInEvolve env.now env.cpu stats)
  else pm

/-- The per-cpu context-switch count of trace_sched_switch (lines 161-165). -/
def sched_switch_cpu (env : CpuEnv) (cm : List (Nat × CpuStats)) :
    List (Nat × CpuStats) :=
  match mapLookup cm env.cpu with
  | some cs =>
      mapSet cm env.cpu { cs with context_switches := add64 cs.context_switches 1 }
  | none => cm

/-- trace_sched_switch (lines 111-168): outgoing-task block, then
incoming-task block on the resulting map, then the per-cpu context-switch
counter. -/
def trace_sched_switch (env : CpuEnv) (s : CpuState)
    (prev_pid next_pid prev_state : Nat) : CpuState :=
  { s with
      process_map :=
        sched_switch_in env (sched_switch_out env s.process_map prev_pid prev_state)
          next_pid
      cpu_map := sched_switch_cpu env s.cpu_map }

/-- trace_sched_wakeup (lines 171-181): emits one sample for the current
task at the target cpu. -/
def trace_sched_wakeup (env : CpuEnv) (s : CpuState) (task : TaskInfo)
    (target_cpu : Nat) : CpuState :=
  { s with events :=
      send_cpu_sample env.now s.events_cap s.events task target_cpu 0 }

/-- The fresh record sample_cpu_perf inserts on a lookup miss (lines
197-203): zero-initialized, with total_runtime starting at 1 and the
observation fields set. -/
def sampleInit (ts cpu : Nat) : ProcessStats :=
  { zeroProcessStats with
    total_runtime := 1, last_seen := ts, min_cpu := cpu, max_cpu := cpu }

/-- The in-place mutation sample_cpu_perf performs on an existing record
(lines 204-209): total_runtime incremented, observation fields
refreshed. -/
def sampleEvolve (ts cpu : Nat) (stats : ProcessStats) : ProcessStats :=
  { seenApply ts cpu stats with
      total_runtime := add64 stats.total_runtime 1 }

/-- sample_cpu_perf (lines 184-215): skip the sentinel pid; on a lookup
miss insert the fresh record (insert failure ignored), on a hit mutate it
in place; then emit one sample whose runtime is the ternary
`stats ? stats->total_runtime : 1` — 1 on the miss path (the local
pointer stays NULL there), the incremented total_runtime on the hit
path. -/
def sample_cpu_perf (env : CpuEnv) (s : CpuState) (task : TaskInfo)
    (pid : Nat) : CpuState :=
  if pid = 0 then s
  else
    match mapLookup s.process_map pid with
    | none =>
        match mapUpdate MAX_ENTRIES s.process_map pid
            (sampleInit env.now env.cpu) with
        | some m =>
            { s with
              process_map := m
              events := send_cpu_sample env.now s.events_cap s.events task
                env.cpu 1 }
        | none =>
            { s with
              events := send_cpu_sample env.now s.events_cap s.events task
                env.cpu 1 }
    | some stats =>
        { s with
          process_map := mapSet s.process_map pid (sampleEvolve env.now env.cpu stats)
          events := send_cpu_sample env.now s.events_cap s.events task env.cpu
            (sampleEvolve env.now env.cpu stats).total_runtime }

end CpuProfiler

/-! Concrete states and records used to evaluate the hooks on explicit
inputs. -/

def envC1 : MemoryTracker.MemEnv :=
  { pid := 1, tid := 1, now := 7, stack_id := 2, comm := "sh" }

/-- The run of Scenario A on the code: malloc(128) entry, malloc return
with address 4096, then free(4096), from startup. -/
def runC1 : MemoryTracker.MemState :=
  MemoryTracker.trace_free envC1
    (MemoryTracker.trace_malloc_ret envC1
      (MemoryTracker.trace_malloc envC1 (MemoryTracker.initMemState 16) 128) 4096)
    4096

def envC2 : MemoryTracker.MemEnv :=
  { pid := 3, tid := 3, now := 1, stack_id := 0, comm := "x" }

def eC2 : MemoryTracker.MemoryEvent :=
  { timestamp := 0, pid := 1, tid := 1, addr := 0, size := 1, old_addr := 0,
    etype := 1, flags := 0, stack_id := 0, comm := "x" }

/-- A memory-tracker state whose ring buffer is full (capacity 1, one
record queued). -/
def sC2 : MemoryTracker.MemState :=
  { process_memory_map := [], allocation_map := [],
    system_memory_map := [(0, MemoryTracker.zeroSystemMemory)],
    events := [eC2], events_cap := 1 }

def envT2 : TcpFlow.TcpEnv := { pid := 3, now := 1, comm := "x" }

def tC2 : TcpFlow.TcpEvent :=
  { timestamp := 0, pid := 1, saddr := 0, daddr := 0, sport := 0, dport := 0,
    bytes := 0, rtt := 0, event_type := 1, comm := "x" }

def skC2 : TcpFlow.SockInfo := { saddr := 1, daddr := 2, sport := 3, dport := 4 }

def cC2 : CpuProfiler.CpuSample :=
  { timestamp := 0, pid := 1, cpu := 0, runtime := 0, vruntime := 0, prio := 0,
    weight := 0, comm := "x" }

def taskC2 : CpuProfiler.TaskInfo :=
  { pid := 1, prio := 0, vruntime := 0, weight := 0, comm := "x" }

def envC3 : MemoryTracker.MemEnv :=
  { pid := 1, tid := 1, now := 4, stack_id := 0, comm := "sh" }

def rC3 : MemoryTracker.ProcessMemory :=
  { MemoryTracker.zeroProcessMemory with
    current_usage := 5, peak_usage := 5 }

/-- A state tracking pid 1 (free_count 0) with an empty correlation
table. -/
def sC3 : MemoryTracker.MemState :=
  { process_memory_map := [(1, rC3)], allocation_map := [],
    system_memory_map := [(0, MemoryTracker.zeroSystemMemory)],
    events := [], events_cap := 4 }

def rC4 : MemoryTracker.ProcessMemory :=
  { MemoryTracker.zeroProcessMemory with
    current_usage := 5, peak_usage := 9 }

/-- The record after a deallocation of 10 hits a gauge of 5. -/
def cexC4 : MemoryTracker.ProcessMemory := MemoryTracker.pmApply false 10 rC4

def envC5 : MemoryTracker.MemEnv :=
  { pid := 2, tid := 2, now := 8, stack_id := 0, comm := "sh" }

def infoC5 : MemoryTracker.AllocationInfo :=
  { size := 64, timestamp := 1, stack_id := 0, pid := 2 }

def sC5 : MemoryTracker.MemState :=
  { process_memory_map := [], allocation_map := [(4096, infoC5)],
    system_memory_map := [(0, MemoryTracker.zeroSystemMemory)],
    events := [], events_cap := 4 }

def rC6 : MemoryTracker.ProcessMemory :=
  { MemoryTracker.zeroProcessMemory with
    total_allocated := 100, allocation_count := 2, current_usage := 60,
    peak_usage := 80 }

def envT6 : TcpFlow.TcpEnv := { pid := 4, now := 2, comm := "nc" }

def skT6 : TcpFlow.SockInfo := { saddr := 10, daddr := 20, sport := 256, dport := 512 }

def frT6 : TcpFlow.FlowData := TcpFlow.txInit 1 30

def sT6a : TcpFlow.TcpState := { flow_map := [], events := [], events_cap := 4 }

def sT6b : TcpFlow.TcpState :=
  { flow_map := [(TcpFlow.sockKey skT6, frT6)], events := [], events_cap := 4 }

def envK6 : CpuProfiler.CpuEnv := { cpu := 1, now := 11 }

def rsK6 : CpuProfiler.ProcessStats :=
  { CpuProfiler.zeroProcessStats with
    total_runtime := 4, schedule_count := 2, voluntary_switches := 1,
    involuntary_switches := 1, last_seen := 3, min_cpu := 2, max_cpu := 5 }

def taskK6 : CpuProfiler.TaskInfo :=
  { pid := 5, prio := 1, vruntime := 2, weight := 3, comm := "k" }

/-- A cpu-profiler state already tracking task 5. -/
def csK6 : CpuProfiler.CpuState :=
  { process_map := [(5, rsK6)], cpu_map := [], events := [], events_cap := 4 }

/-- A cpu-profiler state tracking no task yet. -/
def csK6a : CpuProfiler.CpuState :=
  { process_map := [], cpu_map := [], events := [], events_cap := 4 }

def envK6m : MemoryTracker.MemEnv :=
  { pid := 7, tid := 7, now := 12, stack_id := 0, comm := "m" }

/-- A memory-tracker state not yet tracking pid 7. -/
def msK6a : MemoryTracker.MemState := MemoryTracker.initMemState 4

/-- A memory-tracker state already tracking pid 7 with the record rC6. -/
def msK6b : MemoryTracker.MemState :=
  { process_memory_map := [(7, rC6)], allocation_map := [],
    system_memory_map := [(0, MemoryTracker.zeroSystemMemory)],
    events := [], events_cap := 4 }

def envC7 : MemoryTracker.MemEnv :=
  { pid := 1, tid := 1, now := 2, stack_id := 0, comm := "w" }

def preC7 : List (MemoryTracker.MemEnv × MemoryTracker.MemHook) :=
  [(envC7, MemoryTracker.MemHook.allocPages 0)]

def sufC7 : List (MemoryTracker.MemEnv × MemoryTracker.MemHook) :=
  [(envC7, MemoryTracker.MemHook.freePages 0)]

def rC7a : MemoryTracker.ProcessMemory :=
  MemoryTracker.pmApply true 4096 MemoryTracker.zeroProcessMemory

def rC7b : MemoryTracker.ProcessMemory := MemoryTracker.pmApply false 4096 rC7a

def envC8 : CpuProfiler.CpuEnv := { cpu := 0, now := 9 }

def sC8 : CpuProfiler.CpuState :=
  { process_map := [], cpu_map := [], events := [], events_cap := 4 }

def rpC8 : CpuProfiler.ProcessStats :=
  { CpuProfiler.zeroProcessStats with
    schedule_count := 3, voluntary_switches := 1, involuntary_switches := 2,
    last_seen := 5 }

def rnC8 : CpuProfiler.ProcessStats :=
  { CpuProfiler.zeroProcessStats with
    schedule_count := 7, last_seen := 6 }

/-- A cpu-profiler state already tracking the outgoing task 5 and the
incoming task 6. -/
def sC8w : CpuProfiler.CpuState :=
  { process_map := [(5, rpC8), (6, rnC8)], cpu_map := [], events := [],
    events_cap := 4 }

def envC9 : TcpFlow.TcpEnv := { pid := 1, now := 3, comm := "x" }

def skC9 : TcpFlow.SockInfo := { saddr := 1, daddr := 2, sport := 256, dport := 512 }

def frC9 : TcpFlow.FlowData := TcpFlow.txInit 1 10

def sC9 : TcpFlow.TcpState :=
  { flow_map := [(TcpFlow.sockKey skC9, frC9)], events := [], events_cap := 4 }

def envC10 : MemoryTracker.MemEnv :=
  { pid := 7, tid := 7, now := 1, stack_id := 0, comm := "sh" }

def sC10 : MemoryTracker.MemState := MemoryTracker.initMemState 2

/-! Map lemmas. -/

theorem mapLookup_set {K V : Type} [DecidableEq K] (m : List (K × V))
    (k k' : K) (v : V) :
    mapLookup (mapSet m k v) k' = if k' = k then some v else mapLookup m k' := by
  induction m with
  | nil => by_cases h : k' = k <;> simp [mapSet, mapLookup, h]
  | cons p rest ih =>
      obtain ⟨k0, v0⟩ := p
      by_cases h1 : k = k0
      · subst h1
        by_cases h2 : k' = k <;> simp [mapSet, mapLookup, h2]
      · by_cases h2 : k' = k0
        · subst h2
          have hne : ¬ k' = k := fun h => h1 h.symm
          simp [mapSet, h1, mapLookup, hne]
        · simp [mapSet, h1, mapLookup, h2, ih]

theorem mapLookup_delete {K V : Type} [DecidableEq K] (m : List (K × V))
    (k k' : K) :
    mapLookup (mapDelete m k) k' = if k' = k then none else mapLookup m k' := by
  induction m with
  | nil => by_cases h : k' = k <;> simp [mapDelete, mapLookup, h]
  | cons p rest ih =>
      obtain ⟨k0, v0⟩ := p
      by_cases h1 : k = k0
      · subst h1
        by_cases h2 : k' = k
        · subst h2; simp [mapDelete, mapLookup, ih]
        · simp [mapDelete, mapLookup, h2, ih]
      · by_cases h2 : k' = k0
        · subst h2
          have hne : ¬ k' = k := fun h => h1 h.symm
          simp [mapDelete, h1, mapLookup, hne]
        · simp [mapDelete, h1, mapLookup, h2, ih]

theorem mapUpdate_eq_set {K V : Type} [DecidableEq K] {cap : Nat}
    {m m' : List (K × V)} {k : K} {v : V}
    (h : mapUpdate cap m k v = some m') : m' = mapSet m k v := by
  unfold mapUpdate at h
  split at h
  · exact (Option.some.inj h).symm
  · exact absurd h (by simp)

theorem mapUpdate_none {K V : Type} [DecidableEq K] {cap : Nat}
    {m : List (K × V)} {k : K} {v : V}
    (h : mapUpdate cap m k v = none) :
    mapLookup m k = none ∧ cap ≤ m.length := by
  unfold mapUpdate at h
  split at h
  · exact absurd h (by simp)
  · rename_i hcond
    push_neg at hcond
    refine ⟨?_, hcond.2⟩
    rcases h' : mapLookup m k with _ | v'
    · rfl
    · exact absurd (by simp [h']) hcond.1

namespace MemoryTracker

/-! Lemmas on the get-or-create pattern of memory_tracker.c. -/

theorem getOrCreatePM_cases (m : List (Nat × ProcessMemory)) (pid : Nat) :
    (∃ r, mapLookup m pid = some r ∧ getOrCreatePM m pid = (m, some r)) ∨
    (mapLookup m pid = none ∧
      getOrCreatePM m pid =
        (mapSet m pid zeroProcessMemory, some zeroProcessMemory)) ∨
    (mapLookup m pid = none ∧ m.length ≥ MAX_ENTRIES ∧
      getOrCreatePM m pid = (m, none)) := by
  unfold getOrCreatePM
  rcases h : mapLookup m pid with _ | r
  · rcases hu : mapUpdate MAX_ENTRIES m pid zeroProcessMemory with _ | m2
    · right; right
      exact ⟨rfl, (mapUpdate_none hu).2, rfl⟩
    · have hm2 : m2 = mapSet m pid zeroProcessMemory := mapUpdate_eq_set hu
      subst hm2
      right; left
      refine ⟨rfl, ?_⟩
      simp [mapLookup_set]
  · left; exact ⟨r, rfl, rfl⟩

theorem withProcessRecord_lookup_ne (m : List (Nat × ProcessMemory))
    (pid : Nat) (f : ProcessMemory → ProcessMemory) (k : Nat) (hk : k ≠ pid) :
    mapLookup (withProcessRecord m pid f) k = mapLookup m k := by
  unfold withProcessRecord
  rcases getOrCreatePM_cases m pid with ⟨r, _, hg⟩ | ⟨_, hg⟩ | ⟨_, _, hg⟩ <;>
    simp [hg, mapLookup_set, hk]

theorem withProcessRecord_lookup_some (m : List (Nat × ProcessMemory))
    (pid : Nat) (f : ProcessMemory → ProcessMemory) (r : ProcessMemory)
    (h : mapLookup m pid = some r) :
    mapLookup (withProcessRecord m pid f) pid = some (f r) := by
  unfold withProcessRecord
  rcases getOrCreatePM_cases m pid with ⟨r0, hr0, hg⟩ | ⟨hnone, hg⟩ | ⟨hnone, _, hg⟩
  · have : r0 = r := Option.some.inj (hr0.symm.trans h)
    subst this
    simp [hg, mapLookup_set]
  · rw [h] at hnone; exact absurd hnone (by simp)
  · rw [h] at hnone; exact absurd hnone (by simp)

theorem withProcessRecord_lookup_none (m : List (Nat × ProcessMemory))
    (pid : Nat) (f : ProcessMemory → ProcessMemory)
    (h : mapLookup m pid = none) (hcap : m.length < MAX_ENTRIES) :
    mapLookup (withProcessRecord m pid f) pid = some (f zeroProcessMemory) := by
  unfold withProcessRecord
  rcases getOrCreatePM_cases m pid with ⟨r0, hr0, hg⟩ | ⟨_, hg⟩ | ⟨_, hbig, hg⟩
  · rw [h] at hr0; exact absurd hr0 (by simp)
  · simp [hg, mapLookup_set]
  · exact absurd hbig (by omega)

end MemoryTracker

namespace MemoryTracker

theorem pmGE_refl (m : List (Nat × ProcessMemory)) : pmGE m m :=
  fun _ r h => ⟨r, h, le_refl _⟩

theorem pmGE_trans {a b c : List (Nat × ProcessMemory)}
    (h1 : pmGE a b) (h2 : pmGE b c) : pmGE a c := by
  intro pid r h
  obtain ⟨r1, hr1, hp1⟩ := h1 pid r h
  obtain ⟨r2, hr2, hp2⟩ := h2 pid r1 hr1
  exact ⟨r2, hr2, le_trans hp1 hp2⟩

/-- The record mutation of update_process_memory keeps the gauge below the
peak and never lowers the peak. -/
theorem pmApply_good (ia : Bool) (d : Nat) :
    ∀ r : ProcessMemory,
      (r.current_usage ≤ r.peak_usage →
        (pmApply ia d r).current_usage ≤ (pmApply ia d r).peak_usage) ∧
      r.peak_usage ≤ (pmApply ia d r).peak_usage := by
  intro r
  cases ia with
  | false =>
      refine ⟨fun h => ?_, ?_⟩
      · simp only [pmApply, Bool.false_eq_true, if_false]
        split
        · exact le_trans (Nat.sub_le _ _) h
        · exact h
      · simp [pmApply]
  | true =>
      refine ⟨fun _ => ?_, ?_⟩
      · simp only [pmApply, if_true]
        split <;> omega
      · simp only [pmApply, if_true]
        split <;> omega

theorem pfApply_good (error_code : Nat) :
    ∀ r : ProcessMemory,
      (r.current_usage ≤ r.peak_usage →
        (pfApply error_code r).current_usage ≤ (pfApply error_code r).peak_usage) ∧
      r.peak_usage ≤ (pfApply error_code r).peak_usage := by
  intro r
  unfold pfApply
  split <;> exact ⟨fun h => h, le_refl _⟩

theorem withProcessRecord_good (m : List (Nat × ProcessMemory)) (pid : Nat)
    (f : ProcessMemory → ProcessMemory)
    (hf : ∀ r : ProcessMemory,
      (r.current_usage ≤ r.peak_usage →
        (f r).current_usage ≤ (f r).peak_usage) ∧
      r.peak_usage ≤ (f r).peak_usage)
    (hInv : PMInv m) :
    PMInv (withProcessRecord m pid f) ∧ pmGE m (withProcessRecord m pid f) := by
  rcases getOrCreatePM_cases m pid with ⟨r0, hr0, hg⟩ | ⟨hnone, hg⟩ | ⟨_, _, hg⟩
  · have hwpr : withProcessRecord m pid f = mapSet m pid (f r0) := by
      unfold withProcessRecord; rw [hg]
    constructor
    · intro k r hk
      rw [hwpr, mapLookup_set] at hk
      by_cases hkp : k = pid
      · rw [if_pos hkp] at hk
        have : r = f r0 := (Option.some.inj hk).symm
        subst this
        exact (hf r0).1 (hInv pid r0 hr0)
      · rw [if_neg hkp] at hk
        exact hInv k r hk
    · intro k r hk
      by_cases hkp : k = pid
      · subst hkp
        have hrr : r0 = r := Option.some.inj (hr0.symm.trans hk)
        subst hrr
        refine ⟨f r0, ?_, (hf r0).2⟩
        rw [hwpr, mapLookup_set, if_pos rfl]
      · refine ⟨r, ?_, le_refl _⟩
        rw [hwpr, mapLookup_set, if_neg hkp]
        exact hk
  · have hwpr : withProcessRecord m pid f =
        mapSet (mapSet m pid zeroProcessMemory) pid (f zeroProcessMemory) := by
      unfold withProcessRecord; rw [hg]
    constructor
    · intro k r hk
      rw [hwpr, mapLookup_set] at hk
      by_cases hkp : k = pid
      · rw [if_pos hkp] at hk
        have : r = f zeroProcessMemory := (Option.some.inj hk).symm
        subst this
        exact (hf zeroProcessMemory).1 (by simp [zeroProcessMemory])
      · rw [if_neg hkp, mapLookup_set, if_neg hkp] at hk
        exact hInv k r hk
    · intro k r hk
      by_cases hkp : k = pid
      · subst hkp
        rw [hnone] at hk
        cases hk
      · refine ⟨r, ?_, le_refl _⟩
        rw [hwpr, mapLookup_set, if_neg hkp, mapLookup_set, if_neg hkp]
        exact hk
  · have hwpr : withProcessRecord m pid f = m := by
      unfold withProcessRecord; rw [hg]
    rw [hwpr]
    exact ⟨hInv, pmGE_refl m⟩

theorem update_process_memory_good (m : List (Nat × ProcessMemory))
    (pid d : Nat) (ia : Bool) (hInv : PMInv m) :
    PMInv (update_process_memory m pid d ia) ∧
      pmGE m (update_process_memory m pid d ia) := by
  unfold update_process_memory
  exact withProcessRecord_good m pid _ (pmApply_good ia d) hInv

/-- The process map after trace_page_fault, expressed through the shared
get-or-create mutation. -/
theorem trace_page_fault_pm (env : MemEnv) (s : MemState)
    (address error_code : Nat) :
    (trace_page_fault env s address error_code).process_memory_map =
      if env.pid = 0 then s.process_memory_map
      else withProcessRecord s.process_memory_map env.pid (pfApply error_code) := by
  by_cases h : env.pid = 0
  · simp [trace_page_fault, h]
  · unfold trace_page_fault withProcessRecord
    rcases hg : getOrCreatePM s.process_memory_map env.pid with ⟨m2, om⟩
    rcases om with _ | mem <;> simp [h, hg, emitMem]

theorem memStep_good (s : MemState) (i : MemEnv × MemHook)
    (hInv : PMInv s.process_memory_map) :
    PMInv (memStep s i).process_memory_map ∧
      pmGE s.process_memory_map (memStep s i).process_memory_map := by
  have triv : PMInv s.process_memory_map ∧
      pmGE s.process_memory_map s.process_memory_map := ⟨hInv, pmGE_refl _⟩
  rcases i with ⟨env, hook⟩
  cases hook with
  | malloc size =>
      simp only [memStep]
      unfold trace_malloc
      split
      · exact triv
      · exact triv
  | mallocRet addr =>
      simp only [memStep]
      unfold trace_malloc_ret
      split
      · exact triv
      · exact triv
  | free addr =>
      simp only [memStep]
      unfold trace_free
      split
      · exact triv
      · split
        · exact update_process_memory_good _ _ _ _ hInv
        · exact triv
  | mmapEnter len =>
      simp only [memStep]
      unfold trace_mmap_enter
      split
      · exact triv
      · exact triv
  | mmapExit addr =>
      simp only [memStep]
      unfold trace_mmap_exit
      split
      · exact triv
      · split
        · exact triv
        · exact triv
  | munmap addr len =>
      simp only [memStep]
      unfold trace_munmap
      split
      · exact triv
      · split
        · exact update_process_memory_good _ _ _ _ hInv
        · exact triv
  | brk addr =>
      simp only [memStep]
      unfold trace_brk
      split
      · exact triv
      · exact triv
  | pageFault address error_code =>
      simp only [memStep]
      have hpm := trace_page_fault_pm env s address error_code
      rw [show (trace_page_fault env s address error_code).process_memory_map =
        _ from hpm]
      split
      · exact triv
      · exact withProcessRecord_good _ _ _ (pfApply_good error_code) hInv
  | pressure =>
      simp only [memStep]
      unfold trace_memory_pressure
      split
      · exact triv
      · exact triv
  | oom victim =>
      simp only [memStep]
      unfold trace_oom_victim
      exact triv
  | sample mm_ok rss vmem =>
      simp only [memStep]
      unfold sample_memory_stats
      split
      · exact triv
      · split
        · exact withProcessRecord_good _ _ _
            (fun r => ⟨fun h => h, le_refl _⟩) hInv
        · exact triv
  | allocPages order =>
      simp only [memStep]
      unfold alloc_pages_hook
      split
      · exact triv
      · exact update_process_memory_good _ _ _ _ hInv
  | freePages order =>
      simp only [memStep]
      unfold free_pages_hook
      split
      · exact triv
      · exact update_process_memory_good _ _ _ _ hInv

theorem runMem_good (tr : List (MemEnv × MemHook)) (s : MemState)
    (hInv : PMInv s.process_memory_map) :
    PMInv (runMem s tr).process_memory_map ∧
      pmGE s.process_memory_map (runMem s tr).process_memory_map := by
  induction tr generalizing s with
  | nil => exact ⟨hInv, pmGE_refl _⟩
  | cons i tl ih =>
      have h1 := memStep_good s i hInv
      have h2 := ih (memStep s i) h1.1
      exact ⟨h2.1, pmGE_trans h1.2 h2.2⟩

end MemoryTracker

namespace MemoryTracker

/-- Claim C7: for every process key and every sequence of memory hook
invocations from startup, peak_usage is non-decreasing over the sequence
and at every point is at least every historical value of current_usage for
that key: comparing the record at any cut point of the trace with the
record at the end of any extension, both the earlier peak and the earlier
current usage are bounded by the later peak. -/
theorem C7_peak_monotone (cap : Nat) (pre suf : List (MemEnv × MemHook))
    (pid : Nat) (r r' : ProcessMemory)
    (hpre : mapLookup (runMem (initMemState cap) pre).process_memory_map pid = some r)
    (hfull : mapLookup (runMem (initMemState cap) (pre ++ suf)).process_memory_map
      pid = some r') :
    r.peak_usage ≤ r'.peak_usage ∧ r.current_usage ≤ r'.peak_usage := by
  have hinit : PMInv (initMemState cap).process_memory_map := by
    intro p r0 h
    simp [initMemState, mapLookup] at h
  have h1 := runMem_good pre (initMemState cap) hinit
  have hsplit : runMem (initMemState cap) (pre ++ suf) =
      runMem (runMem (initMemState cap) pre) suf := by
    simp [runMem, List.foldl_append]
  rw [hsplit] at hfull
  have h2 := runMem_good suf (runMem (initMemState cap) pre) h1.1
  obtain ⟨r2, hr2, hpk⟩ := h2.2 pid r hpre
  have hrr : r2 = r' := Option.some.inj (hr2.symm.trans hfull)
  subst hrr
  exact ⟨hpk, le_trans (h1.1 pid r hpre) hpk⟩

/-- Witness for C7 on the concrete trace: one page allocation of 4096
bytes, then one page free. -/
theorem C7_peak_monotone_witness :
    rC7a.peak_usage ≤ rC7b.peak_usage ∧ rC7a.current_usage ≤ rC7b.peak_usage :=
  C7_peak_monotone 4 preC7 sufC7 1 rC7a rC7b (by decide) (by decide)

/-- Claim C5: the take on the correlation table (the lookup-and-delete
over allocation_map performed by trace_free and trace_munmap) is
exactly-once: after a take that returned an entry, a second take of the
same address before an intervening put returns empty; and on a hit both
hooks leave allocation_map exactly as the take leaves it. -/
theorem C5_take_exactly_once (env : MemEnv) (s : MemState) (addr len : Nat)
    (info : AllocationInfo)
    (h : (takeAllocation s.allocation_map addr).1 = some info)
    (hpid : env.pid ≠ 0) (haddr : addr ≠ 0) :
    (takeAllocation (takeAllocation s.allocation_map addr).2 addr).1 = none ∧
    (trace_free env s addr).allocation_map = (takeAllocation s.allocation_map addr).2 ∧
    (trace_munmap env s addr len).allocation_map =
      (takeAllocation s.allocation_map addr).2 := by
  have hguard : ¬ (env.pid = 0 ∨ addr = 0) := by
    rintro (h0 | h0)
    · exact hpid h0
    · exact haddr h0
  rcases hl : mapLookup s.allocation_map addr with _ | i
  · simp [takeAllocation, hl] at h
  · refine ⟨?_, ?_, ?_⟩
    · simp [takeAllocation, hl, mapLookup_delete]
    · simp [trace_free, takeAllocation, hguard, hl, emitMem]
    · simp [trace_munmap, takeAllocation, hguard, hl, emitMem]

/-- Witness for C5 on a one-entry correlation table. -/
theorem C5_take_exactly_once_witness :
    (takeAllocation (takeAllocation sC5.allocation_map 4096).2 4096).1 = none ∧
    (trace_free envC5 sC5 4096).allocation_map =
      (takeAllocation sC5.allocation_map 4096).2 ∧
    (trace_munmap envC5 sC5 4096 64).allocation_map =
      (takeAllocation sC5.allocation_map 4096).2 :=
  C5_take_exactly_once envC5 sC5 4096 64 infoC5 (by decide) (by decide) (by decide)

/-- Claim C10: a malloc entry with size 0 or pid 0, a free with address 0
or pid 0, and an mmap entry with length 0 or pid 0 are complete no-ops:
the hook returns the state unchanged — no event is emitted and no table
entry is created or modified. -/
theorem C10_zero_guard_noop (env : MemEnv) (s : MemState) (size addr len : Nat) :
    (env.pid = 0 ∨ size = 0 → trace_malloc env s size = s) ∧
    (env.pid = 0 ∨ addr = 0 → trace_free env s addr = s) ∧
    (env.pid = 0 ∨ len = 0 → trace_mmap_enter env s len = s) := by
  refine ⟨fun h => ?_, fun h => ?_, fun h => ?_⟩
  · unfold trace_malloc
    rw [if_pos h]
  · unfold trace_free
    rw [if_pos h]
  · unfold trace_mmap_enter
    rw [if_pos h]

/-- Witness for C10 with zero-valued arguments and a nonzero pid. -/
theorem C10_zero_guard_noop_witness :
    trace_malloc envC10 sC10 0 = sC10 ∧ trace_free envC10 sC10 0 = sC10 ∧
    trace_mmap_enter envC10 sC10 0 = sC10 :=
  ⟨(C10_zero_guard_noop envC10 sC10 0 0 0).1 (Or.inr rfl),
   (C10_zero_guard_noop envC10 sC10 0 0 0).2.1 (Or.inr rfl),
   (C10_zero_guard_noop envC10 sC10 0 0 0).2.2 (Or.inr rfl)⟩

/-- Claim C4 as stated is false on the code: a deallocation of 10 against
a gauge of 5 does not clamp current_usage to 0 — the guarded subtraction
is skipped entirely and the gauge stays at 5. -/
theorem C4_clamp_counterexample :
    mapLookup (update_process_memory [(1, rC4)] 1 10 false) 1 = some cexC4 ∧
    rC4.current_usage < 10 ∧ cexC4.current_usage = 5 ∧
    ¬ cexC4.current_usage = 0 := by
  decide

/-- Claim C4 (amended): on the deallocation path the unsigned gauge never
underflows, but not by clamping to zero: when the subtracted size exceeds
current_usage the subtraction is skipped and the gauge is left unchanged;
when it fits, it subtracts exactly; in all cases the gauge does not
increase (no wrap-around). -/
theorem C4_no_underflow (m : List (Nat × ProcessMemory)) (pid d : Nat)
    (r : ProcessMemory) (h : mapLookup m pid = some r) :
    mapLookup (update_process_memory m pid d false) pid =
      some (pmApply false d r) ∧
    (r.current_usage < d →
      (pmApply false d r).current_usage = r.current_usage) ∧
    (d ≤ r.current_usage →
      (pmApply false d r).current_usage = r.current_usage - d) ∧
    (pmApply false d r).current_usage ≤ r.current_usage := by
  refine ⟨?_, fun hlt => ?_, fun hle => ?_, ?_⟩
  · unfold update_process_memory
    exact withProcessRecord_lookup_some m pid _ r h
  · simp only [pmApply, Bool.false_eq_true, if_false]
    rw [if_neg (by omega)]
  · simp only [pmApply, Bool.false_eq_true, if_false]
    rw [if_pos hle]
  · simp only [pmApply, Bool.false_eq_true, if_false]
    split <;> omega

/-- Witness for C4 (amended) on the gauge-5 record with a fitting
subtraction of 2. -/
theorem C4_no_underflow_witness :
    mapLookup (update_process_memory [(1, rC4)] 1 2 false) 1 =
      some (pmApply false 2 rC4) ∧
    (rC4.current_usage < 2 →
      (pmApply false 2 rC4).current_usage = rC4.current_usage) ∧
    (2 ≤ rC4.current_usage →
      (pmApply false 2 rC4).current_usage = rC4.current_usage - 2) ∧
    (pmApply false 2 rC4).current_usage ≤ rC4.current_usage :=
  C4_no_underflow [(1, rC4)] 1 2 rC4 (by decide)

/-- Claim C3 as stated is false on the code: a free of an address with no
correlation entry leaves the statistics record untouched — free_count
does not increment — and a munmap with no entry emits the syscall length
(here 77), not size 0. -/
theorem C3_missing_correlation_counterexample :
    mapLookup (trace_free envC3 sC3 7).process_memory_map 1 = some rC3 ∧
    rC3.free_count = 0 ∧
    List.map (fun e => MemoryEvent.size e) (trace_munmap envC3 sC3 7 77).events =
      [77] := by
  decide

/-- Claim C3 (amended): a free with no matching correlation entry still
emits an event with size 0 (a munmap emits the syscall length instead),
and the whole statistics side is skipped: process_memory_map is untouched
— free_count does not increment and current_usage is unaffected (in
particular never driven below zero) — and allocation_map is unchanged. -/
theorem C3_missing_correlation (env : MemEnv) (s : MemState) (addr len : Nat)
    (hpid : env.pid ≠ 0) (haddr : addr ≠ 0)
    (hmiss : mapLookup s.allocation_map addr = none) :
    trace_free env s addr = emitMem env s env.pid addr 0 ALLOC_FREE 0 ∧
    (trace_free env s addr).process_memory_map = s.process_memory_map ∧
    (trace_free env s addr).allocation_map = s.allocation_map ∧
    trace_munmap env s addr len = emitMem env s env.pid addr len ALLOC_MUNMAP 0 ∧
    (trace_munmap env s addr len).process_memory_map = s.process_memory_map := by
  have hguard : ¬ (env.pid = 0 ∨ addr = 0) := by
    rintro (h0 | h0)
    · exact hpid h0
    · exact haddr h0
  have hfree : trace_free env s addr = emitMem env s env.pid addr 0 ALLOC_FREE 0 := by
    unfold trace_free
    rw [if_neg hguard, hmiss]
  have hmun : trace_munmap env s addr len =
      emitMem env s env.pid addr len ALLOC_MUNMAP 0 := by
    unfold trace_munmap
    rw [if_neg hguard, hmiss]
  refine ⟨hfree, ?_, ?_, hmun, ?_⟩
  · rw [hfree]; rfl
  · rw [hfree]; rfl
  · rw [hmun]; rfl

/-- Witness for C3 (amended) on the tracked-pid state with an unrecorded
address. -/
theorem C3_missing_correlation_witness :
    trace_free envC3 sC3 7 = emitMem envC3 sC3 1 7 0 ALLOC_FREE 0 ∧
    (trace_free envC3 sC3 7).process_memory_map = sC3.process_memory_map ∧
    (trace_free envC3 sC3 7).allocation_map = sC3.allocation_map ∧
    trace_munmap envC3 sC3 7 77 = emitMem envC3 sC3 1 7 77 ALLOC_MUNMAP 0 ∧
    (trace_munmap envC3 sC3 7 77).process_memory_map = sC3.process_memory_map :=
  C3_missing_correlation envC3 sC3 7 77 (by decide) (by decide) (by decide)

/-- Claim C1 evaluated at the failing input (Scenario A): after
malloc(128) entry, malloc return with address 4096 and free(4096) from
startup, no statistics record exists for the process at all — so none of
allocation_count = 1, free_count = 1, total_allocated = 128,
total_freed = 128 holds — the correlation table is empty, and the emitted
events are the malloc event of size 128 and a free event of size 0:
trace_malloc_ret stores nothing, so the free side finds no correlation
entry and never calls update_process_memory. -/
theorem C1_malloc_free_scenario :
    mapLookup runC1.process_memory_map 1 = none ∧
    runC1.allocation_map = [] ∧
    List.map (fun e => (MemoryEvent.etype e, MemoryEvent.size e)) runC1.events =
      [(ALLOC_MALLOC, 128), (ALLOC_FREE, 0)] := by
  decide

end MemoryTracker

namespace TcpFlow

theorem emitTcp_flow_map (env : TcpEnv) (s : TcpState) (t : Nat) (sk : SockInfo)
    (b r : Nat) : (emitTcp env s t sk b r).flow_map = s.flow_map := rfl

/-- The state-transition hook only emits events: flow_map is untouched. -/
theorem trace_tcp_state_change_flow_map (env : TcpEnv) (s : TcpState)
    (sk : SockInfo) (family oldstate newstate : Nat) :
    (trace_tcp_state_change env s sk family oldstate newstate).flow_map =
      s.flow_map := by
  unfold trace_tcp_state_change
  split
  · rfl
  · split <;> split <;> split <;> rfl

/-- The flow-map effect of tcp_sendmsg, read off its definition. -/
theorem tcp_sendmsg_flow_map (env : TcpEnv) (s : TcpState) (sk : SockInfo)
    (size : Nat) :
    (tcp_sendmsg env s sk size).flow_map =
      match mapLookup s.flow_map (sockKey sk) with
      | none =>
          match mapUpdate MAX_ENTRIES s.flow_map (sockKey sk)
              (txInit env.now size) with
          | some m => m
          | none => s.flow_map
      | some flow => mapSet s.flow_map (sockKey sk) (txApply env.now size flow) :=
  rfl

/-- The flow-map effect of tcp_cleanup_rbuf, read off its definition. -/
theorem tcp_cleanup_rbuf_flow_map (env : TcpEnv) (s : TcpState) (sk : SockInfo)
    (copied : Int) :
    (tcp_cleanup_rbuf env s sk copied).flow_map =
      if copied ≤ 0 then s.flow_map
      else
        match mapLookup s.flow_map (sockKey sk) with
        | none =>
            match mapUpdate MAX_ENTRIES s.flow_map (sockKey sk)
                (rxInit env.now copied.toNat) with
            | some m => m
            | none => s.flow_map
        | some flow =>
            mapSet s.flow_map (sockKey sk) (rxApply env.now copied.toNat flow) := by
  unfold tcp_cleanup_rbuf
  split <;> rfl

theorem tcpStep_rtt (s : TcpState) (i : TcpEnv × TcpHook)
    (h : RttZero s.flow_map) : RttZero (tcpStep s i).flow_map := by
  rcases i with ⟨env, hook⟩
  cases hook with
  | stateChange sk family oldstate newstate =>
      simp only [tcpStep]
      rw [trace_tcp_state_change_flow_map]
      exact h
  | probe sk snd_nxt snd_una srtt =>
      simp only [tcpStep]
      exact h
  | retransmit sk =>
      simp only [tcpStep]
      exact h
  | sendmsg sk size =>
      simp only [tcpStep]
      intro key r hr
      rw [tcp_sendmsg_flow_map] at hr
      rcases hl : mapLookup s.flow_map (sockKey sk) with _ | flow
      · simp only [hl] at hr
        rcases hu : mapUpdate MAX_ENTRIES s.flow_map (sockKey sk)
            (txInit env.now size) with _ | m2
        · simp only [hu] at hr
          exact h key r hr
        · simp only [hu] at hr
          rw [mapUpdate_eq_set hu, mapLookup_set] at hr
          by_cases hk : key = sockKey sk
          · rw [if_pos hk] at hr
            have hv : txInit env.now size = r := Option.some.inj hr
            rw [hv.symm]
            exact ⟨rfl, rfl⟩
          · rw [if_neg hk] at hr
            exact h key r hr
      · simp only [hl] at hr
        rw [mapLookup_set] at hr
        by_cases hk : key = sockKey sk
        · rw [if_pos hk] at hr
          have hflow := h (sockKey sk) flow hl
          have hv : txApply env.now size flow = r := Option.some.inj hr
          rw [hv.symm]
          exact ⟨hflow.1, hflow.2⟩
        · rw [if_neg hk] at hr
          exact h key r hr
  | cleanupRbuf sk copied =>
      simp only [tcpStep]
      intro key r hr
      rw [tcp_cleanup_rbuf_flow_map] at hr
      by_cases hc : copied ≤ 0
      · rw [if_pos hc] at hr
        exact h key r hr
      · rw [if_neg hc] at hr
        rcases hl : mapLookup s.flow_map (sockKey sk) with _ | flow
        · simp only [hl] at hr
          rcases hu : mapUpdate MAX_ENTRIES s.flow_map (sockKey sk)
              (rxInit env.now copied.toNat) with _ | m2
          · simp only [hu] at hr
            exact h key r hr
          · simp only [hu] at hr
            rw [mapUpdate_eq_set hu, mapLookup_set] at hr
            by_cases hk : key = sockKey sk
            · rw [if_pos hk] at hr
              have hv : rxInit env.now copied.toNat = r := Option.some.inj hr
              rw [hv.symm]
              exact ⟨rfl, rfl⟩
            · rw [if_neg hk] at hr
              exact h key r hr
        · simp only [hl] at hr
          rw [mapLookup_set] at hr
          by_cases hk : key = sockKey sk
          · rw [if_pos hk] at hr
            have hflow := h (sockKey sk) flow hl
            have hv : rxApply env.now copied.toNat flow = r := Option.some.inj hr
            rw [hv.symm]
            exact ⟨hflow.1, hflow.2⟩
          · rw [if_neg hk] at hr
            exact h key r hr

theorem runTcp_rtt (tr : List (TcpEnv × TcpHook)) (s : TcpState)
    (h : RttZero s.flow_map) : RttZero (runTcp s tr).flow_map := by
  induction tr generalizing s with
  | nil => exact h
  | cons i tl ih => exact ih (tcpStep s i) (tcpStep_rtt s i h)

/-- Claim C9 (amended): round-trip-time samples are only carried in
emitted events (trace_tcp_probe passes srtt into the event and never
touches flow_map); no hook ever writes the flow record's running
(rtt_total, rtt_samples) pair, so every record reachable from startup
still has both fields at zero. -/
theorem C9_rtt_never_updated (cap : Nat) (tr : List (TcpEnv × TcpHook))
    (key : FlowKey) (r : FlowData)
    (h : mapLookup (runTcp (initTcpState cap) tr).flow_map key = some r) :
    r.rtt_samples = 0 ∧ r.rtt_total = 0 := by
  have hinit : RttZero (initTcpState cap).flow_map := by
    intro k r0 h0
    simp [initTcpState, mapLookup] at h0
  exact runTcp_rtt tr (initTcpState cap) hinit key r h

end TcpFlow

/-- Claim C9 as stated is false on the code: an srtt sample of 42 arriving
through trace_tcp_probe for an existing flow leaves flow_map — and in
particular the matching record's (rtt_total, rtt_samples) pair, still
(0, 0) — completely unchanged; only the emitted event carries the value. -/
theorem C9_rtt_counterexample :
    (TcpFlow.trace_tcp_probe envC9 sC9 skC9 100 50 42).flow_map = sC9.flow_map ∧
    mapLookup (TcpFlow.trace_tcp_probe envC9 sC9 skC9 100 50 42).flow_map
      (TcpFlow.sockKey skC9) = some frC9 ∧
    frC9.rtt_samples = 0 ∧ frC9.rtt_total = 0 ∧
    List.map (fun e => TcpFlow.TcpEvent.rtt e)
      (TcpFlow.trace_tcp_probe envC9 sC9 skC9 100 50 42).events = [42] := by
  decide

/-- Witness for C9 (amended): the record created by a concrete send still
has a zero round-trip-time pair. -/
theorem C9_rtt_never_updated_witness :
    (TcpFlow.txInit 3 10).rtt_samples = 0 ∧ (TcpFlow.txInit 3 10).rtt_total = 0 :=
  TcpFlow.C9_rtt_never_updated 4 [(envC9, TcpFlow.TcpHook.sendmsg skC9 10)]
    (TcpFlow.sockKey skC9) (TcpFlow.txInit 3 10) (by decide)

/-- Claim C6: on every keyed aggregation table — process_memory_map,
flow_map, and the cpu profiler's process_map — the first lookup miss
synthesizes the zero-initialized record exactly once (the stored result
is the zero record with that first update merged in) and every subsequent
access for the key evolves the existing record in place: the new value is
a function of the stored one, never a fresh zero record.  Stated at every
get-or-create site: update_process_memory, trace_page_fault and
sample_memory_stats for process_memory_map; tcp_sendmsg and
tcp_cleanup_rbuf for flow_map; both blocks of trace_sched_switch (tied to
the hook by the final conjunct) and sample_cpu_perf for process_map. -/
theorem C6_getOrCreate_zero_once (m : List (Nat × MemoryTracker.ProcessMemory))
    (pid d : Nat) (ia : Bool) (r : MemoryTracker.ProcessMemory)
    (env : TcpFlow.TcpEnv) (s : TcpFlow.TcpState) (sk : TcpFlow.SockInfo)
    (size : Nat) (fr : TcpFlow.FlowData)
    (menv : MemoryTracker.MemEnv) (ms : MemoryTracker.MemState)
    (address ec rssv vmemv : Nat) (copied : Int)
    (cenv : CpuProfiler.CpuEnv) (pm : List (Nat × CpuProfiler.ProcessStats))
    (cpid prev_state : Nat) (rs : CpuProfiler.ProcessStats)
    (ctask : CpuProfiler.TaskInfo) (ccs : CpuProfiler.CpuState)
    (cprev cnext : Nat) :
    (mapLookup m pid = none → m.length < MemoryTracker.MAX_ENTRIES →
      mapLookup (MemoryTracker.update_process_memory m pid d ia) pid =
        some (MemoryTracker.pmApply ia d MemoryTracker.zeroProcessMemory)) ∧
    (mapLookup m pid = some r →
      mapLookup (MemoryTracker.update_process_memory m pid d ia) pid =
        some (MemoryTracker.pmApply ia d r)) ∧
    (mapLookup s.flow_map (TcpFlow.sockKey sk) = none →
      s.flow_map.length < TcpFlow.MAX_ENTRIES →
      mapLookup (TcpFlow.tcp_sendmsg env s sk size).flow_map
        (TcpFlow.sockKey sk) = some (TcpFlow.txInit env.now size)) ∧
    (mapLookup s.flow_map (TcpFlow.sockKey sk) = some fr →
      mapLookup (TcpFlow.tcp_sendmsg env s sk size).flow_map
        (TcpFlow.sockKey sk) = some (TcpFlow.txApply env.now size fr)) ∧
    (menv.pid ≠ 0 → mapLookup ms.process_memory_map menv.pid = none →
      ms.process_memory_map.length < MemoryTracker.MAX_ENTRIES →
      mapLookup (MemoryTracker.trace_page_fault menv ms address
        ec).process_memory_map menv.pid =
        some (MemoryTracker.pfApply ec MemoryTracker.zeroProcessMemory)) ∧
    (menv.pid ≠ 0 → mapLookup ms.process_memory_map menv.pid = some r →
      mapLookup (MemoryTracker.trace_page_fault menv ms address
        ec).process_memory_map menv.pid = some (MemoryTracker.pfApply ec r)) ∧
    (menv.pid ≠ 0 → mapLookup ms.process_memory_map menv.pid = none →
      ms.process_memory_map.length < MemoryTracker.MAX_ENTRIES →
      mapLookup (MemoryTracker.sample_memory_stats menv ms true rssv
        vmemv).process_memory_map menv.pid =
        some { MemoryTracker.zeroProcessMemory with
               rss_pages := rssv, vmem_pages := vmemv }) ∧
    (menv.pid ≠ 0 → mapLookup ms.process_memory_map menv.pid = some r →
      mapLookup (MemoryTracker.sample_memory_stats menv ms true rssv
        vmemv).process_memory_map menv.pid =
        some { r with rss_pages := rssv, vmem_pages := vmemv }) ∧
    (0 < copied → mapLookup s.flow_map (TcpFlow.sockKey sk) = none →
      s.flow_map.length < TcpFlow.MAX_ENTRIES →
      mapLookup (TcpFlow.tcp_cleanup_rbuf env s sk copied).flow_map
        (TcpFlow.sockKey sk) = some (TcpFlow.rxInit env.now copied.toNat)) ∧
    (0 < copied → mapLookup s.flow_map (TcpFlow.sockKey sk) = some fr →
      mapLookup (TcpFlow.tcp_cleanup_rbuf env s sk copied).flow_map
        (TcpFlow.sockKey sk) =
        some (TcpFlow.rxApply env.now copied.toNat fr)) ∧
    (0 < cpid → mapLookup pm cpid = none →
      pm.length < CpuProfiler.MAX_ENTRIES →
      mapLookup (CpuProfiler.sched_switch_out cenv pm cpid prev_state) cpid =
        some (CpuProfiler.schedOutInit cenv.now cenv.cpu)) ∧
    (0 < cpid → mapLookup pm cpid = some rs →
      mapLookup (CpuProfiler.sched_switch_out cenv pm cpid prev_state) cpid =
        some (CpuProfiler.schedOutEvolve cenv.now cenv.cpu prev_state rs)) ∧
    (0 < cpid → mapLookup pm cpid = none →
      pm.length < CpuProfiler.MAX_ENTRIES →
      mapLookup (CpuProfiler.sched_switch_in cenv pm cpid) cpid =
        some (CpuProfiler.schedInInit cenv.now cenv.cpu)) ∧
    (0 < cpid → mapLookup pm cpid = some rs →
      mapLookup (CpuProfiler.sched_switch_in cenv pm cpid) cpid =
        some (CpuProfiler.schedInEvolve cenv.now cenv.cpu rs)) ∧
    (cpid ≠ 0 → mapLookup ccs.process_map cpid = none →
      ccs.process_map.length < CpuProfiler.MAX_ENTRIES →
      mapLookup (CpuProfiler.sample_cpu_perf cenv ccs ctask cpid).process_map
        cpid = some (CpuProfiler.sampleInit cenv.now cenv.cpu)) ∧
    (cpid ≠ 0 → mapLookup ccs.process_map cpid = some rs →
      mapLookup (CpuProfiler.sample_cpu_perf cenv ccs ctask cpid).process_map
        cpid = some (CpuProfiler.sampleEvolve cenv.now cenv.cpu rs)) ∧
    ((CpuProfiler.trace_sched_switch cenv ccs cprev cnext
        prev_state).process_map =
      CpuProfiler.sched_switch_in cenv
        (CpuProfiler.sched_switch_out cenv ccs.process_map cprev prev_state)
        cnext) := by
  refine ⟨fun h hcap => ?_, fun h => ?_, fun h hcap => ?_, fun h => ?_,
    fun hp hmiss hcap => ?_, fun hp hsome => ?_, fun hp hmiss hcap => ?_,
    fun hp hsome => ?_, fun hpos hmiss hcap => ?_, fun hpos hsome => ?_,
    fun h0 hmiss hcap => ?_, fun h0 hsome => ?_, fun h0 hmiss hcap => ?_,
    fun h0 hsome => ?_, fun h0 hmiss hcap => ?_, fun h0 hsome => ?_, ?_⟩
  · unfold MemoryTracker.update_process_memory
    exact MemoryTracker.withProcessRecord_lookup_none m pid _ h hcap
  · unfold MemoryTracker.update_process_memory
    exact MemoryTracker.withProcessRecord_lookup_some m pid _ r h
  · rw [TcpFlow.tcp_sendmsg_flow_map]
    have hupd : mapUpdate TcpFlow.MAX_ENTRIES s.flow_map (TcpFlow.sockKey sk)
        (TcpFlow.txInit env.now size) =
        some (mapSet s.flow_map (TcpFlow.sockKey sk)
          (TcpFlow.txInit env.now size)) := by
      unfold mapUpdate
      rw [if_pos (Or.inr hcap)]
    simp only [h, hupd]
    rw [mapLookup_set, if_pos rfl]
  · rw [TcpFlow.tcp_sendmsg_flow_map]
    simp only [h]
    rw [mapLookup_set, if_pos rfl]
  · rw [MemoryTracker.trace_page_fault_pm, if_neg hp]
    exact MemoryTracker.withProcessRecord_lookup_none _ _ _ hmiss hcap
  · rw [MemoryTracker.trace_page_fault_pm, if_neg hp]
    exact MemoryTracker.withProcessRecord_lookup_some _ _ _ _ hsome
  · unfold MemoryTracker.sample_memory_stats
    rw [if_neg hp, if_pos rfl]
    exact MemoryTracker.withProcessRecord_lookup_none _ _ _ hmiss hcap
  · unfold MemoryTracker.sample_memory_stats
    rw [if_neg hp, if_pos rfl]
    exact MemoryTracker.withProcessRecord_lookup_some _ _ _ _ hsome
  · rw [TcpFlow.tcp_cleanup_rbuf_flow_map, if_neg (by omega : ¬ copied ≤ 0)]
    have hupd : mapUpdate TcpFlow.MAX_ENTRIES s.flow_map (TcpFlow.sockKey sk)
        (TcpFlow.rxInit env.now copied.toNat) =
        some (mapSet s.flow_map (TcpFlow.sockKey sk)
          (TcpFlow.rxInit env.now copied.toNat)) := by
      unfold mapUpdate
      rw [if_pos (Or.inr hcap)]
    simp only [hmiss, hupd]
    rw [mapLookup_set, if_pos rfl]
  · rw [TcpFlow.tcp_cleanup_rbuf_flow_map, if_neg (by omega : ¬ copied ≤ 0)]
    simp only [hsome]
    rw [mapLookup_set, if_pos rfl]
  · unfold CpuProfiler.sched_switch_out
    rw [if_pos h0]
    have hupd : mapUpdate CpuProfiler.MAX_ENTRIES pm cpid
        (CpuProfiler.schedOutInit cenv.now cenv.cpu) =
        some (mapSet pm cpid (CpuProfiler.schedOutInit cenv.now cenv.cpu)) := by
      unfold mapUpdate
      rw [if_pos (Or.inr hcap)]
    simp only [hmiss, hupd]
    rw [mapLookup_set, if_pos rfl]
  · unfold CpuProfiler.sched_switch_out
    rw [if_pos h0]
    simp only [hsome]
    rw [mapLookup_set, if_pos rfl]
  · unfold CpuProfiler.sched_switch_in
    rw [if_pos h0]
    have hupd : mapUpdate CpuProfiler.MAX_ENTRIES pm cpid
        (CpuProfiler.schedInInit cenv.now cenv.cpu) =
        some (mapSet pm cpid (CpuProfiler.schedInInit cenv.now cenv.cpu)) := by
      unfold mapUpdate
      rw [if_pos (Or.inr hcap)]
    simp only [hmiss, hupd]
    rw [mapLookup_set, if_pos rfl]
  · unfold CpuProfiler.sched_switch_in
    rw [if_pos h0]
    simp only [hsome]
    rw [mapLookup_set, if_pos rfl]
  · unfold CpuProfiler.sample_cpu_perf
    rw [if_neg h0]
    have hupd : mapUpdate CpuProfiler.MAX_ENTRIES ccs.process_map cpid
        (CpuProfiler.sampleInit cenv.now cenv.cpu) =
        some (mapSet ccs.process_map cpid
          (CpuProfiler.sampleInit cenv.now cenv.cpu)) := by
      unfold mapUpdate
      rw [if_pos (Or.inr hcap)]
    simp only [hmiss, hupd]
    rw [mapLookup_set, if_pos rfl]
  · unfold CpuProfiler.sample_cpu_perf
    rw [if_neg h0]
    simp only [hsome]
    rw [mapLookup_set, if_pos rfl]
  · rfl

/-- Witness for C6: at every get-or-create site of the three tables, a
first observation creates the fresh record and a second observation
evolves the stored one. -/
theorem C6_getOrCreate_zero_once_witness :
    mapLookup (MemoryTracker.update_process_memory [] 1 8 true) 1 =
      some (MemoryTracker.pmApply true 8 MemoryTracker.zeroProcessMemory) ∧
    mapLookup (MemoryTracker.update_process_memory [(1, rC6)] 1 8 true) 1 =
      some (MemoryTracker.pmApply true 8 rC6) ∧
    mapLookup (TcpFlow.tcp_sendmsg envT6 sT6a skT6 100).flow_map
      (TcpFlow.sockKey skT6) = some (TcpFlow.txInit 2 100) ∧
    mapLookup (TcpFlow.tcp_sendmsg envT6 sT6b skT6 100).flow_map
      (TcpFlow.sockKey skT6) = some (TcpFlow.txApply 2 100 frT6) ∧
    mapLookup (MemoryTracker.trace_page_fault envK6m msK6a 99
      4).process_memory_map 7 =
      some (MemoryTracker.pfApply 4 MemoryTracker.zeroProcessMemory) ∧
    mapLookup (MemoryTracker.trace_page_fault envK6m msK6b 99
      4).process_memory_map 7 = some (MemoryTracker.pfApply 4 rC6) ∧
    mapLookup (MemoryTracker.sample_memory_stats envK6m msK6a true 13
      14).process_memory_map 7 =
      some { MemoryTracker.zeroProcessMemory with
             rss_pages := 13, vmem_pages := 14 } ∧
    mapLookup (MemoryTracker.sample_memory_stats envK6m msK6b true 13
      14).process_memory_map 7 =
      some { rC6 with rss_pages := 13, vmem_pages := 14 } ∧
    mapLookup (TcpFlow.tcp_cleanup_rbuf envT6 sT6a skT6 3).flow_map
      (TcpFlow.sockKey skT6) = some (TcpFlow.rxInit 2 3) ∧
    mapLookup (TcpFlow.tcp_cleanup_rbuf envT6 sT6b skT6 3).flow_map
      (TcpFlow.sockKey skT6) = some (TcpFlow.rxApply 2 3 frT6) ∧
    mapLookup (CpuProfiler.sched_switch_out envK6 [] 5 0) 5 =
      some (CpuProfiler.schedOutInit 11 1) ∧
    mapLookup (CpuProfiler.sched_switch_out envK6 [(5, rsK6)] 5 0) 5 =
      some (CpuProfiler.schedOutEvolve 11 1 0 rsK6) ∧
    mapLookup (CpuProfiler.sched_switch_in envK6 [] 5) 5 =
      some (CpuProfiler.schedInInit 11 1) ∧
    mapLookup (CpuProfiler.sched_switch_in envK6 [(5, rsK6)] 5) 5 =
      some (CpuProfiler.schedInEvolve 11 1 rsK6) ∧
    mapLookup (CpuProfiler.sample_cpu_perf envK6 csK6a taskK6 5).process_map 5 =
      some (CpuProfiler.sampleInit 11 1) ∧
    mapLookup (CpuProfiler.sample_cpu_perf envK6 csK6 taskK6 5).process_map 5 =
      some (CpuProfiler.sampleEvolve 11 1 rsK6) ∧
    (CpuProfiler.trace_sched_switch envK6 csK6 5 6 0).process_map =
      CpuProfiler.sched_switch_in envK6
        (CpuProfiler.sched_switch_out envK6 csK6.process_map 5 0) 6 := by
  obtain ⟨a1, -, a3, -, a5, -, a7, -, a9, -, a11, -, a13, -, a15, -, -⟩ :=
    C6_getOrCreate_zero_once [] 1 8 true MemoryTracker.zeroProcessMemory envT6
      sT6a skT6 100 frT6 envK6m msK6a 99 4 13 14 3 envK6 [] 5 0 rsK6 taskK6
      csK6a 5 6
  obtain ⟨-, b2, -, b4, -, b6, -, b8, -, b10, -, b12, -, b14, -, b16, b17⟩ :=
    C6_getOrCreate_zero_once [(1, rC6)] 1 8 true rC6 envT6 sT6b skT6 100 frT6
      envK6m msK6b 99 4 13 14 3 envK6 [(5, rsK6)] 5 0 rsK6 taskK6 csK6 5 6
  exact ⟨a1 (by decide) (by decide), b2 (by decide),
    a3 (by decide) (by decide), b4 (by decide),
    a5 (by decide) (by decide) (by decide), b6 (by decide) (by decide),
    a7 (by decide) (by decide) (by decide), b8 (by decide) (by decide),
    a9 (by decide) (by decide) (by decide), b10 (by decide) (by decide),
    a11 (by decide) (by decide) (by decide), b12 (by decide) (by decide),
    a13 (by decide) (by decide) (by decide), b14 (by decide) (by decide),
    a15 (by decide) (by decide) (by decide), b16 (by decide) (by decide),
    b17⟩

namespace CpuProfiler

/-- Claim C8 (amended): for a scheduler-switch event whose outgoing and
incoming task ids are nonzero, distinct, and both already tracked in
process_map: the outgoing record becomes its schedOutEvolve image — whose
involuntary_switches counter is incremented exactly when the prior state
was runnable (TASK_RUNNING) and whose voluntary_switches counter is
incremented otherwise — and the incoming record becomes its schedInEvolve
image, with schedule_count incremented.  (On a first observation the code
instead inserts a fresh record and counts no switch; see the
counterexample.) -/
theorem C8_sched_switch (env : CpuEnv) (s : CpuState)
    (prev_pid next_pid prev_state : Nat) (rp rn : ProcessStats)
    (hprev : 0 < prev_pid) (hnext : 0 < next_pid) (hne : prev_pid ≠ next_pid)
    (hp : mapLookup s.process_map prev_pid = some rp)
    (hn : mapLookup s.process_map next_pid = some rn) :
    mapLookup (trace_sched_switch env s prev_pid next_pid prev_state).process_map
      prev_pid = some (schedOutEvolve env.now env.cpu prev_state rp) ∧
    mapLookup (trace_sched_switch env s prev_pid next_pid prev_state).process_map
      next_pid = some (schedInEvolve env.now env.cpu rn) ∧
    (prev_state = TASK_RUNNING →
      (schedOutEvolve env.now env.cpu prev_state rp).involuntary_switches =
        add64 rp.involuntary_switches 1 ∧
      (schedOutEvolve env.now env.cpu prev_state rp).voluntary_switches =
        rp.voluntary_switches) ∧
    (prev_state ≠ TASK_RUNNING →
      (schedOutEvolve env.now env.cpu prev_state rp).voluntary_switches =
        add64 rp.voluntary_switches 1 ∧
      (schedOutEvolve env.now env.cpu prev_state rp).involuntary_switches =
        rp.involuntary_switches) ∧
    (schedInEvolve env.now env.cpu rn).schedule_count =
      add64 rn.schedule_count 1 := by
  have hnp : ¬ next_pid = prev_pid := fun h0 => hne h0.symm
  have hpn : ¬ prev_pid = next_pid := hne
  have hout : sched_switch_out env s.process_map prev_pid prev_state =
      mapSet s.process_map prev_pid
        (schedOutEvolve env.now env.cpu prev_state rp) := by
    unfold sched_switch_out
    rw [if_pos hprev, hp]
  have hlk2 : mapLookup (sched_switch_out env s.process_map prev_pid prev_state)
      next_pid = some rn := by
    rw [hout, mapLookup_set, if_neg hnp]
    exact hn
  have hin : sched_switch_in env
      (sched_switch_out env s.process_map prev_pid prev_state) next_pid =
      mapSet (mapSet s.process_map prev_pid
        (schedOutEvolve env.now env.cpu prev_state rp)) next_pid
        (schedInEvolve env.now env.cpu rn) := by
    unfold sched_switch_in
    rw [if_pos hnext, hlk2, hout]
  refine ⟨?_, ?_, fun hrun => ?_, fun hnrun => ?_, ?_⟩
  · show mapLookup (sched_switch_in env
      (sched_switch_out env s.process_map prev_pid prev_state) next_pid)
      prev_pid = _
    rw [hin, mapLookup_set, if_neg hpn, mapLookup_set, if_pos rfl]
  · show mapLookup (sched_switch_in env
      (sched_switch_out env s.process_map prev_pid prev_state) next_pid)
      next_pid = _
    rw [hin, mapLookup_set, if_pos rfl]
  · unfold schedOutEvolve
    rw [if_pos hrun]
    exact ⟨rfl, rfl⟩
  · unfold schedOutEvolve
    rw [if_neg hnrun]
    exact ⟨rfl, rfl⟩
  · rfl

end CpuProfiler

/-- Claim C8 as stated is false on the code: a scheduler switch whose
outgoing task (pid 5, prior state runnable) has no statistics record yet
creates a fresh record with BOTH switch counters still zero — neither
voluntary_switches nor involuntary_switches increments. -/
theorem C8_sched_switch_counterexample :
    mapLookup (CpuProfiler.trace_sched_switch envC8 sC8 5 6
      CpuProfiler.TASK_RUNNING).process_map 5 =
      some (CpuProfiler.schedOutInit 9 0) ∧
    (CpuProfiler.schedOutInit 9 0).involuntary_switches = 0 ∧
    (CpuProfiler.schedOutInit 9 0).voluntary_switches = 0 := by
  decide

/-- Witness for C8 (amended) on a state already tracking the outgoing task
5 and the incoming task 6, with a runnable prior state. -/
theorem C8_sched_switch_witness :
    mapLookup (CpuProfiler.trace_sched_switch envC8 sC8w 5 6 0).process_map 5 =
      some (CpuProfiler.schedOutEvolve 9 0 0 rpC8) ∧
    mapLookup (CpuProfiler.trace_sched_switch envC8 sC8w 5 6 0).process_map 6 =
      some (CpuProfiler.schedInEvolve 9 0 rnC8) ∧
    (0 = CpuProfiler.TASK_RUNNING →
      (CpuProfiler.schedOutEvolve 9 0 0 rpC8).involuntary_switches =
        add64 rpC8.involuntary_switches 1 ∧
      (CpuProfiler.schedOutEvolve 9 0 0 rpC8).voluntary_switches =
        rpC8.voluntary_switches) ∧
    (0 ≠ CpuProfiler.TASK_RUNNING →
      (CpuProfiler.schedOutEvolve 9 0 0 rpC8).voluntary_switches =
        add64 rpC8.voluntary_switches 1 ∧
      (CpuProfiler.schedOutEvolve 9 0 0 rpC8).involuntary_switches =
        rpC8.involuntary_switches) ∧
    (CpuProfiler.schedInEvolve 9 0 rnC8).schedule_count =
      add64 rnC8.schedule_count 1 :=
  CpuProfiler.C8_sched_switch envC8 sC8w 5 6 0 rpC8 rnC8 (by decide) (by decide)
    (by decide) (by decide) (by decide)

/-- Claim C2 as stated is false on the code: with the channel full, each
emission helper returns with the buffer — and, as the trace_brk conjunct
shows, with the entire probe state — unchanged; there is no drop counter
anywhere, so none is incremented. -/
theorem C2_drop_counter_counterexample :
    MemoryTracker.send_memory_event envC2 1 [eC2] 3 0 8 1 0 = [eC2] ∧
    MemoryTracker.trace_brk envC2 sC2 5 = sC2 ∧
    TcpFlow.send_event envT2 1 [tC2] 1 skC2 0 0 = [tC2] ∧
    CpuProfiler.send_cpu_sample 9 1 [cC2] taskC2 0 0 = [cC2] := by
  decide

/-- Claim C2 (amended): when the bounded channel is full, each
event-emission helper (send_memory_event, send_event, send_cpu_sample)
returns immediately — emission is a total function of the state, with no
blocking path — the record is dropped, and nothing at all changes: the
code maintains no drop counter, as the hook-level trace_brk conjunct
makes explicit by returning the whole state unchanged. -/
theorem C2_full_channel_drop
    (envm : MemoryTracker.MemEnv) (s : MemoryTracker.MemState)
    (capm : Nat) (bufm : List MemoryTracker.MemoryEvent)
    (pid addr size ty old_addr : Nat)
    (envt : TcpFlow.TcpEnv) (capt : Nat) (buft : List TcpFlow.TcpEvent)
    (et : Nat) (sk : TcpFlow.SockInfo) (bytes rtt : Nat)
    (now capc : Nat) (bufc : List CpuProfiler.CpuSample)
    (task : CpuProfiler.TaskInfo) (cpu runtime : Nat) (baddr : Nat)
    (hm : capm ≤ bufm.length) (ht : capt ≤ buft.length)
    (hc : capc ≤ bufc.length) (hs : s.events_cap ≤ s.events.length) :
    MemoryTracker.send_memory_event envm capm bufm pid addr size ty old_addr =
      bufm ∧
    TcpFlow.send_event envt capt buft et sk bytes rtt = buft ∧
    CpuProfiler.send_cpu_sample now capc bufc task cpu runtime = bufc ∧
    MemoryTracker.trace_brk envm s baddr = s := by
  refine ⟨?_, ?_, ?_, ?_⟩
  · unfold MemoryTracker.send_memory_event
    rw [if_neg (by omega)]
  · unfold TcpFlow.send_event
    rw [if_neg (by omega)]
  · unfold CpuProfiler.send_cpu_sample
    rw [if_neg (by omega)]
  · unfold MemoryTracker.trace_brk
    split
    · rfl
    · unfold MemoryTracker.emitMem MemoryTracker.send_memory_event
      rw [if_neg (by omega)]

/-- Witness for C2 (amended) on concrete full channels of capacity 1. -/
theorem C2_full_channel_drop_witness :
    MemoryTracker.send_memory_event envC2 1 [eC2] 3 0 16 1 0 = [eC2] ∧
    TcpFlow.send_event envT2 1 [tC2] 2 skC2 5 6 = [tC2] ∧
    CpuProfiler.send_cpu_sample 9 1 [cC2] taskC2 1 2 = [cC2] ∧
    MemoryTracker.trace_brk envC2 sC2 8 = sC2 :=
  C2_full_channel_drop envC2 sC2 1 [eC2] 3 0 16 1 0 envT2 1 [tC2] 2 skC2 5 6 9 1
    [cC2] taskC2 1 2 8 (by decide) (by decide) (by decide) (by decide)
